import Mathlib

/-!
Verification of the activity-detection and recording-session lifecycle of
src/record.py (Activity_Surveil).  The per-iteration signal analysis, the
trigger policy, the session state machine of the main loop, the stop and
cleanup paths and the startup checks are embedded as executable Lean
definitions, translated from the source.  Timestamps (Python floats from
time.time()) are modelled as rationals, PCM samples (numpy int16) as
integers, and image pixels as natural numbers.  The external OpenCV
primitives used by detect_motion (absdiff, cvtColor, GaussianBlur,
threshold, dilate, findContours/contourArea) are modelled as pixel-level
functions on list matrices; the contour enumeration is modelled as
connected-component extraction with pixel-count areas, which covers the
only behaviour of the external library the theorems rely on: a zero image
has no regions, and regions are scanned in enumeration order.
-/

/-- The value of the module-level constant trigger_method
(src/record.py line 18): one of the strings motion, sound, either. -/
inductive TriggerMethod where
  | motion : TriggerMethod
  | sound : TriggerMethod
  | either : TriggerMethod
deriving DecidableEq, Repr

/-- The value of the module-level constant record_content
(src/record.py line 19): one of the strings video, audio, both, none. -/
inductive RecordContent where
  | video : RecordContent
  | audio : RecordContent
  | both : RecordContent
  | none : RecordContent
deriving DecidableEq, Repr

/-- The adjustable-parameter block at the top of src/record.py
(lines 15-19).  The source sets them as module-level constants; they are
gathered in one structure so that theorems can quantify over them. -/
structure Config where
  motion_threshold : ℚ
  sound_threshold : ℚ
  no_activity_time_limit : ℚ
  trigger_method : TriggerMethod
  record_content : RecordContent

/-- The concrete parameter values of src/record.py lines 15-19:
motion_threshold 30000, sound_threshold 500, no_activity_time_limit 10,
trigger_method either, record_content both. -/
def defaultConfig : Config :=
  { motion_threshold := 30000
    sound_threshold := 500
    no_activity_time_limit := 10
    trigger_method := TriggerMethod.either
    record_content := RecordContent.both }

/-- The test record_content in a list containing video (src/record.py line 174
and the write guard built by start_recording). -/
def recVideo : RecordContent → Bool
  | RecordContent.video => true
  | RecordContent.both => true
  | _ => false

/-- The test record_content in a list containing audio (src/record.py
line 179). -/
def recAudio : RecordContent → Bool
  | RecordContent.audio => true
  | RecordContent.both => true
  | _ => false

/-- The test trigger_method in [sound, either] (src/record.py line 301). -/
def triggerSound : TriggerMethod → Bool
  | TriggerMethod.sound => true
  | TriggerMethod.either => true
  | _ => false

/-- The test trigger_method in [motion, either] (src/record.py line 302). -/
def triggerMotion : TriggerMethod → Bool
  | TriggerMethod.motion => true
  | TriggerMethod.either => true
  | _ => false

/-! ### SoundDetector: detect_sound (src/record.py lines 124-138) -/

/-- One block of signed 16-bit PCM samples, as decoded by
np.frombuffer(data, dtype=np.int16) (src/record.py line 128). -/
abbrev Chunk := List ℤ

/-- The mean square np.mean(data_float ** 2) of src/record.py line 133,
computed exactly over the rationals (the source computes it in float32;
the spec treats the float rounding as quantization noise). -/
def chunkMse (d : Chunk) : ℚ :=
  ((d.map fun x : ℤ => ((x : ℚ)) ^ 2).sum) / (d.length : ℚ)

/-- The comparison rms > sound_threshold of src/record.py line 135,
where rms = sqrt mse.  Since rms is the non-negative square root,
sqrt mse > thr holds exactly when thr < 0, or thr is non-negative and
mse > thr ^ 2; the embedding uses this square-free form so that it stays
computable.  Theorem helpers below relate it to Real.sqrt. -/
def rmsExceeds (mse thr : ℚ) : Bool :=
  if thr < 0 then true else decide (thr ^ 2 < mse)

/-- The conversion int(rms) of src/record.py line 135 (truncation of the
non-negative float rms = sqrt mse), via the identity
int (sqrt x) = Nat.sqrt (int x) for x ≥ 0, proved as intSqrt_floor_eq
below. -/
def pyIntSqrt (mse : ℚ) : ℕ := Nat.sqrt (⌊mse⌋.toNat)

/-- detect_sound (src/record.py lines 124-138).  The input models the
outcome of stream.read: none when the read (or any part of the body)
raises, in which case the except branch returns (False, b'', 0)
(lines 136-138); some d gives the decoded samples.  An empty or all-zero
chunk returns early with (False, data, 0) (lines 129-130); otherwise the
result is (rms > sound_threshold, data, int rms) (line 135). -/
def detect_sound (cfg : Config) (readData : Option Chunk) : Bool × Chunk × ℕ :=
  match readData with
  | Option.none => (false, [], 0)
  | Option.some d =>
      if d = [] ∨ ∀ x ∈ d, x = 0 then (false, d, 0)
      else (rmsExceeds (chunkMse d) cfg.sound_threshold, d, pyIntSqrt (chunkMse d))

/-! ### MotionDetector: detect_motion (src/record.py lines 140-156) -/

/-- A BGR pixel (blue, green, red channel intensities), the element type of
the frames returned by cap.read. -/
abbrev Pixel := ℕ × ℕ × ℕ

/-- A decoded video frame: a matrix of BGR pixels. -/
abbrev Frame := List (List Pixel)

/-- A single-channel (grayscale / binary) image. -/
abbrev Gray := List (List ℕ)

/-- Absolute difference of two channel intensities. -/
def natAbsDiff (a b : ℕ) : ℕ := max a b - min a b

/-- Channel-wise absolute difference of two pixels. -/
def absdiffPixel (p q : Pixel) : Pixel :=
  (natAbsDiff p.1 q.1, natAbsDiff p.2.1 q.2.1, natAbsDiff p.2.2 q.2.2)

/-- cv2.absdiff(frame1, frame2) (src/record.py line 142): pixel-wise
absolute difference. -/
def absdiff (f g : Frame) : Frame :=
  List.zipWith (List.zipWith absdiffPixel) f g

/-- The BGR-to-gray weighting of cv2.cvtColor(_, cv2.COLOR_BGR2GRAY)
(src/record.py line 143), 0.299 R + 0.587 G + 0.114 B, with the division
floored (the external library rounds; the difference is immaterial to the
claims, which only use that a zero pixel maps to 0). -/
def bgr2gray (p : Pixel) : ℕ :=
  (114 * p.1 + 587 * p.2.1 + 299 * p.2.2) / 1000

/-- cv2.cvtColor(diff, cv2.COLOR_BGR2GRAY) (src/record.py line 143). -/
def cvtColorGray (f : Frame) : Gray :=
  f.map fun row => row.map bgr2gray

/-- Pixel lookup with out-of-range reads as 0 (border handling for the
convolution and dilation models; the external library reflects the border,
which again only differs on nonzero images near the edge). -/
def getPx (img : Gray) (i j : ℤ) : ℕ :=
  if 0 ≤ i ∧ 0 ≤ j then (img.getD i.toNat []).getD j.toNat 0 else 0

/-- The 1-d binomial weights of the 5x5 Gaussian kernel used by
cv2.GaussianBlur(gray, (5, 5), 0) (src/record.py line 144). -/
def gaussWeight (k : ℕ) : ℕ := [1, 4, 6, 4, 1].getD k 0

/-- One output pixel of the 5x5 Gaussian convolution, normalized by 256. -/
def blurPx (img : Gray) (i j : ℕ) : ℕ :=
  (((List.range 5).map fun di =>
      ((List.range 5).map fun dj =>
          gaussWeight di * gaussWeight dj *
            getPx img ((i : ℤ) + di - 2) ((j : ℤ) + dj - 2)).sum).sum) / 256

/-- Builds an image of the same shape as img whose (i, j) entry is f i j. -/
def gridMap (f : ℕ → ℕ → ℕ) (img : Gray) : Gray :=
  (List.range img.length).map fun i =>
    (List.range ((img.getD i []).length)).map fun j => f i j

/-- cv2.GaussianBlur(gray, (5, 5), 0) (src/record.py line 144). -/
def gaussianBlur (img : Gray) : Gray := gridMap (blurPx img) img

/-- cv2.threshold(blur, 20, 255, cv2.THRESH_BINARY) (src/record.py
line 145): 255 where the pixel strictly exceeds 20, else 0. -/
def thresholdBin (img : Gray) : Gray :=
  img.map fun row => row.map fun v => if 20 < v then 255 else 0

/-- One output pixel of a 3x3 rectangular dilation (kernel None in
cv2.dilate defaults to 3x3): the maximum over the neighborhood. -/
def dilatePx (img : Gray) (i j : ℕ) : ℕ :=
  ((List.range 3).map fun di =>
      ((List.range 3).map fun dj =>
          getPx img ((i : ℤ) + di - 1) ((j : ℤ) + dj - 1)).foldl max 0).foldl max 0

/-- One iteration of cv2.dilate(thresh, None) (src/record.py line 146). -/
def dilateOnce (img : Gray) : Gray := gridMap (dilatePx img) img

/-- cv2.dilate(thresh, None, iterations=3) (src/record.py line 146). -/
def dilate3 (img : Gray) : Gray := dilateOnce (dilateOnce (dilateOnce img))

/-- 8-connectivity of two pixel positions (the region connectivity used by
the contour model). -/
def adjacent8 (p q : ℕ × ℕ) : Bool :=
  decide (natAbsDiff p.1 q.1 ≤ 1) && decide (natAbsDiff p.2 q.2 ≤ 1) &&
    decide (p ≠ q)

/-- Adds one positive pixel position to a list of connected components,
merging every component it touches. -/
def addPos (comps : List (List (ℕ × ℕ))) (p : ℕ × ℕ) : List (List (ℕ × ℕ)) :=
  let parts := comps.partition fun c => c.any fun q => adjacent8 p q
  (p :: parts.1.flatten) :: parts.2

/-- The positions of the nonzero pixels of a binary image, in row-major
scan order. -/
def positivePositions (img : Gray) : List (ℕ × ℕ) :=
  ((List.range img.length).map fun i =>
      (List.range ((img.getD i []).length)).filterMap fun j =>
        if 0 < (img.getD i []).getD j 0 then some (i, j) else none).flatten

/-- Model of cv2.findContours(dilated, cv2.RETR_TREE, cv2.CHAIN_APPROX_SIMPLE)
(src/record.py line 147): the connected components of the nonzero pixels,
in scan order. -/
def regions (img : Gray) : List (List (ℕ × ℕ)) :=
  (positivePositions img).foldl addPos []

/-- Model of [cv2.contourArea(c) for the detected contours]: the area of a
region, modelled as its pixel count. -/
def contourAreas (img : Gray) : List ℚ :=
  (regions img).map fun c => ((c.length : ℚ))

/-- The scan loop over contours of src/record.py lines 149-156:
return (True, int area) at the first region whose area reaches
motion_threshold; otherwise track max_area (updated with int area whenever
area > max_area, exactly as in the source) and finally return
(False, max_area). -/
def scanContours (thr : ℚ) : ℤ → List ℚ → Bool × ℤ
  | maxArea, [] => (false, maxArea)
  | maxArea, a :: rest =>
      if thr ≤ a then (true, ⌊a⌋)
      else scanContours thr (if (maxArea : ℚ) < a then ⌊a⌋ else maxArea) rest

/-- The image pipeline of detect_motion (src/record.py lines 142-147):
absdiff, gray conversion, Gaussian blur, binarization, triple dilation. -/
def motionPipeline (frame1 frame2 : Frame) : Gray :=
  dilate3 (thresholdBin (gaussianBlur (cvtColorGray (absdiff frame1 frame2))))

/-- detect_motion (src/record.py lines 140-156). -/
def detect_motion (cfg : Config) (frame1 frame2 : Frame) : Bool × ℤ :=
  scanContours cfg.motion_threshold 0 (contourAreas (motionPipeline frame1 frame2))

/-! ### The main loop (src/record.py lines 250-350) -/

/-- The per-iteration external inputs of one pass of the while loop:
the audio read outcome consumed by detect_sound (none when the read
raises), the value of time.time() (line 303), the outcome of the
cap.read() at the end of the iteration (line 341, none when ret is
false), whether display_frame reported ESC (lines 335-337), and the exit
status of the ffmpeg invocation should stop_recording run this iteration
(success = true). -/
structure IterInput where
  chunkRead : Option Chunk
  t : ℚ
  nextFrame : Option Frame
  displayExit : Bool
  muxOk : Bool

/-- The mutable state owned by main (src/record.py lines 280-293) together
with the observable artifact/resource effects of the run: recording and
last_activity_time are the loop variables; outOpen/wfOpen record whether
the VideoWriter / wave sink handles are open; tempVideo/tempAudio whether
the temporary artifact files exist; finalFiles counts final artifacts
produced (mux outputs and renames); muxCalls counts ffmpeg invocations;
opens/closes count start_recording / stop_recording calls;
streamOpen/capOpen track the microphone and camera device handles;
frame1/frame2 are the two retained frames; videoWrites/audioWrites log
every frame/chunk appended to the sinks, in order. -/
structure LoopState where
  recording : Bool
  lastActivityTime : Option ℚ
  outOpen : Bool
  wfOpen : Bool
  tempVideo : Bool
  tempAudio : Bool
  finalFiles : ℕ
  muxCalls : ℕ
  opens : ℕ
  closes : ℕ
  streamOpen : Bool
  capOpen : Bool
  frame1 : Frame
  frame2 : Frame
  videoWrites : List Frame
  audioWrites : List Chunk

/-- The state of main after initialization (src/record.py lines 280-293):
no session, no sinks, devices open, the two initially read frames
retained. -/
def initState (f1 f2 : Frame) : LoopState :=
  { recording := false
    lastActivityTime := Option.none
    outOpen := false
    wfOpen := false
    tempVideo := false
    tempAudio := false
    finalFiles := 0
    muxCalls := 0
    opens := 0
    closes := 0
    streamOpen := true
    capOpen := true
    frame1 := f1
    frame2 := f2
    videoWrites := []
    audioWrites := [] }

/-- start_recording (src/record.py lines 158-186) together with the
recording = True of its caller (line 311): the sinks required by
record_content are opened (creating the temporary artifact files), and a
new session begins. -/
def start_recording (cfg : Config) (s : LoopState) : LoopState :=
  { s with
    recording := true
    opens := s.opens + 1
    outOpen := recVideo cfg.record_content
    wfOpen := recAudio cfg.record_content
    tempVideo := recVideo cfg.record_content
    tempAudio := recAudio cfg.record_content }

/-- stop_recording (src/record.py lines 188-227): release the video
writer and close the wave file (lines 190-193); then, per record_content:
for both, invoke ffmpeg (line 213) -- the final file exists only if the
external tool succeeded, but its exit status is not inspected -- and
remove both temporaries unconditionally (lines 216-217); for video or
audio alone, rename the single temporary to the final name; for none,
produce nothing. -/
def stop_recording (cfg : Config) (muxOk : Bool) (s : LoopState) : LoopState :=
  let s1 := { s with outOpen := false, wfOpen := false, closes := s.closes + 1 }
  match cfg.record_content with
  | RecordContent.both =>
      { s1 with
        muxCalls := s1.muxCalls + 1
        finalFiles := s1.finalFiles + (if muxOk then 1 else 0)
        tempVideo := false
        tempAudio := false }
  | RecordContent.video => { s1 with finalFiles := s1.finalFiles + 1, tempVideo := false }
  | RecordContent.audio => { s1 with finalFiles := s1.finalFiles + 1, tempAudio := false }
  | RecordContent.none => s1

/-- The combined activity flag of one iteration (src/record.py
lines 299-305): motion gated by trigger_method in [motion, either], or
sound gated by trigger_method in [sound, either], in the source's order
motion or sound_detected. -/
def iterActivity (cfg : Config) (s : LoopState) (inp : IterInput) : Bool :=
  ((detect_motion cfg s.frame1 s.frame2).1 && triggerMotion cfg.trigger_method) ||
    ((detect_sound cfg inp.chunkRead).1 && triggerSound cfg.trigger_method)

/-- The activity block of the loop body (src/record.py lines 305-311):
on activity, refresh last_activity_time; if no session is open, call
start_recording and set recording = True. -/
def activityPhase (cfg : Config) (s : LoopState) (inp : IterInput) : LoopState :=
  if iterActivity cfg s inp then
    let s0 := { s with lastActivityTime := some inp.t }
    if s0.recording = false then start_recording cfg s0 else s0
  else s

/-- The idle-timeout guard of src/record.py line 317:
if last_activity_time and (current_time - last_activity_time >
no_activity_time_limit).  Python truthiness makes both None and the float
0.0 fail the first conjunct. -/
def closeCond (lat : Option ℚ) (t limit : ℚ) : Bool :=
  match lat with
  | Option.none => false
  | Option.some v => if v = 0 then false else decide (limit < t - v)

/-- The recording block of the loop body (src/record.py lines 313-320):
append the retained frame1 to the video sink and the iteration's audio
data to the wave sink (lines 314-315), then close the session if the
no-activity window elapsed (lines 317-320). -/
def recordPhase (cfg : Config) (s1 : LoopState) (inp : IterInput) : LoopState :=
  if s1.recording then
    let sW := { s1 with
      videoWrites := if s1.outOpen then s1.videoWrites ++ [s1.frame1] else s1.videoWrites
      audioWrites :=
        if s1.wfOpen then s1.audioWrites ++ [(detect_sound cfg inp.chunkRead).2.1]
        else s1.audioWrites }
    if closeCond sW.lastActivityTime inp.t cfg.no_activity_time_limit then
      { stop_recording cfg inp.muxOk sW with recording := false }
    else sW
  else s1

/-- One full pass of the while loop body (src/record.py lines 297-343):
detection and activity handling, the recording block, then the display
check (break on ESC, lines 335-337) and the frame rotation frame1 =
frame2; ret, frame2 = cap.read() with break when the read fails
(lines 340-343).  The second component is true when the loop exits after
this iteration. -/
def loopStep (cfg : Config) (s : LoopState) (inp : IterInput) : LoopState × Bool :=
  let s2 := recordPhase cfg (activityPhase cfg s inp) inp
  if inp.displayExit then (s2, true)
  else
    match inp.nextFrame with
    | Option.none => ({ s2 with frame1 := s2.frame2 }, true)
    | Option.some f => ({ s2 with frame1 := s2.frame2, frame2 := f }, false)

/-- The while loop of src/record.py lines 297-343 run over a list of
per-iteration inputs; the list ending early models an operator interrupt
caught at the loop boundary (line 345).  Returns the final state and the
number of iterations executed. -/
def runLoop (cfg : Config) : LoopState → List IterInput → LoopState × ℕ
  | s, [] => (s, 0)
  | s, inp :: rest =>
      let r := loopStep cfg s inp
      if r.2 then (r.1, 1)
      else ((runLoop cfg r.1 rest).1, (runLoop cfg r.1 rest).2 + 1)

/-- cleanup (src/record.py lines 237-248), run by the finally clause
(lines 348-350) on every exit of the loop, interrupts included: if a
session is still open, stop_recording finalizes it; then the audio stream
is stopped and closed, PyAudio terminated and the camera released. -/
def cleanup (cfg : Config) (muxOk : Bool) (s : LoopState) : LoopState :=
  let s1 := if s.recording then stop_recording cfg muxOk s else s
  { s1 with streamOpen := false, capOpen := false }

/-- The final state of a whole run of main: the loop over the given
inputs (any prefix of which an interrupt may cut off) followed by the
finally-cleanup. -/
def finState (cfg : Config) (muxOk : Bool) (f1 f2 : Frame)
    (inputs : List IterInput) : LoopState :=
  cleanup cfg muxOk (runLoop cfg (initState f1 f2) inputs).1

/-! ### Startup and exit (src/record.py lines 250-296 and 352-353) -/

/-- The external startup conditions of main: whether platform.system() is
one of the three recognized names (get_codec, lines 72-83), whether
cap.isOpened() after cv2.VideoCapture (lines 97-105), the PyAudio device
count (line 110), whether p.open raises (line 113; PyAudio raises on a
bad device, it does not return None), and whether the second initial
cap.read() succeeds (lines 280-285). -/
structure StartupEnv where
  codecKnown : Bool
  cameraOpens : Bool
  audioDeviceCount : ℕ
  micOpenRaises : Bool
  initFramesOk : Bool

/-- A whole process run of src/record.py (main, lines 250-353): the
startup sequence, then the loop and the finally-cleanup.  Returns the
process exit status and the number of loop iterations executed.  A bare
return from main exits the Python process with status 0; an uncaught
exception exits with status 1.  Following the source order: unknown
platform returns (line 259-260); the camera and audio are initialized --
p.open raising at line 113 propagates out of main uncaught; then cap is
None or p is None returns (lines 266-267); a failed initial frame read
returns (lines 282-285); otherwise the loop runs and the process ends
with status 0 (also on KeyboardInterrupt, caught at lines 345-346). -/
def mainRun (env : StartupEnv) (cfg : Config) (f1 f2 : Frame)
    (inputs : List IterInput) : ℕ × ℕ :=
  if env.codecKnown = false then (0, 0)
  else if 1 ≤ env.audioDeviceCount ∧ env.micOpenRaises = true then (1, 0)
  else if env.cameraOpens = false ∨ env.audioDeviceCount = 0 then (0, 0)
  else if env.initFramesOk = false then (0, 0)
  else (0, (runLoop cfg (initState f1 f2) inputs).2)

/-! ### Helper lemmas: the zero image through the motion pipeline -/

/-- Every entry of a grayscale image is zero. -/
def GrayZero (img : Gray) : Prop := ∀ row ∈ img, ∀ v ∈ row, v = 0

theorem getD_zero (img : Gray) (h : GrayZero img) (i j : ℕ) :
    (img.getD i []).getD j 0 = 0 := by
  rcases Nat.lt_or_ge i img.length with hi | hi
  · rw [List.getD_eq_getElem img [] hi]
    rcases Nat.lt_or_ge j (img[i].length) with hj | hj
    · rw [List.getD_eq_getElem _ 0 hj]
      exact h _ (List.getElem_mem hi) _ (List.getElem_mem hj)
    · exact List.getD_eq_default _ 0 hj
  · rw [List.getD_eq_default img [] hi]
    rfl

theorem getPx_zero (img : Gray) (h : GrayZero img) (i j : ℤ) :
    getPx img i j = 0 := by
  unfold getPx
  split
  · exact getD_zero img h _ _
  · rfl

theorem blurPx_zero (img : Gray) (h : GrayZero img) (i j : ℕ) :
    blurPx img i j = 0 := by
  unfold blurPx
  have hsum : (((List.range 5).map fun di =>
      ((List.range 5).map fun dj =>
          gaussWeight di * gaussWeight dj *
            getPx img ((i : ℤ) + di - 2) ((j : ℤ) + dj - 2)).sum).sum) = 0 := by
    apply List.sum_eq_zero
    intro x hx
    rcases List.mem_map.mp hx with ⟨di, _, rfl⟩
    apply List.sum_eq_zero
    intro y hy
    rcases List.mem_map.mp hy with ⟨dj, _, rfl⟩
    rw [getPx_zero img h, Nat.mul_zero]
  rw [hsum]

theorem gridMap_zero (f : ℕ → ℕ → ℕ) (img : Gray) (h : ∀ i j, f i j = 0) :
    GrayZero (gridMap f img) := by
  intro row hrow v hv
  rcases List.mem_map.mp hrow with ⟨i, _, rfl⟩
  rcases List.mem_map.mp hv with ⟨j, _, rfl⟩
  exact h i j

theorem gaussianBlur_zero (img : Gray) (h : GrayZero img) :
    GrayZero (gaussianBlur img) :=
  gridMap_zero _ img fun i j => blurPx_zero img h i j

theorem thresholdBin_zero (img : Gray) (h : GrayZero img) :
    GrayZero (thresholdBin img) := by
  intro row hrow v hv
  rcases List.mem_map.mp hrow with ⟨r0, hr0, rfl⟩
  rcases List.mem_map.mp hv with ⟨v0, hv0, rfl⟩
  have : v0 = 0 := h r0 hr0 v0 hv0
  simp [this]

theorem foldl_max_zero (l : List ℕ) (h : ∀ x ∈ l, x = 0) : l.foldl max 0 = 0 := by
  induction l with
  | nil => rfl
  | cons a t ih =>
      have ha : a = 0 := h a (List.mem_cons_self a t)
      rw [List.foldl_cons, ha]
      exact ih fun x hx => h x (List.mem_cons_of_mem a hx)

theorem dilatePx_zero (img : Gray) (h : GrayZero img) (i j : ℕ) :
    dilatePx img i j = 0 := by
  unfold dilatePx
  apply foldl_max_zero
  intro x hx
  rcases List.mem_map.mp hx with ⟨di, _, rfl⟩
  apply foldl_max_zero
  intro y hy
  rcases List.mem_map.mp hy with ⟨dj, _, rfl⟩
  exact getPx_zero img h _ _

theorem dilateOnce_zero (img : Gray) (h : GrayZero img) :
    GrayZero (dilateOnce img) :=
  gridMap_zero _ img fun i j => dilatePx_zero img h i j

theorem dilate3_zero (img : Gray) (h : GrayZero img) :
    GrayZero (dilate3 img) :=
  dilateOnce_zero _ (dilateOnce_zero _ (dilateOnce_zero _ h))

theorem positivePositions_zero (img : Gray) (h : GrayZero img) :
    positivePositions img = [] := by
  unfold positivePositions
  apply List.flatten_eq_nil_iff.mpr
  intro l hl
  rcases List.mem_map.mp hl with ⟨i, _, rfl⟩
  apply List.filterMap_eq_nil_iff.mpr
  intro j _
  rw [getD_zero img h i j]
  simp

theorem contourAreas_zero (img : Gray) (h : GrayZero img) :
    contourAreas img = [] := by
  unfold contourAreas regions
  rw [positivePositions_zero img h]
  rfl

/-- The pixel-wise difference of a frame with itself is all zero once
converted to gray. -/
theorem cvtColorGray_absdiff_self (f : Frame) :
    GrayZero (cvtColorGray (absdiff f f)) := by
  intro row hrow v hv
  unfold cvtColorGray absdiff at hrow
  rw [List.zipWith_same] at hrow
  rcases List.mem_map.mp hrow with ⟨row0, hrow0, rfl⟩
  rcases List.mem_map.mp hrow0 with ⟨r1, _, rfl⟩
  rcases List.mem_map.mp hv with ⟨p, hp, rfl⟩
  rw [List.zipWith_same] at hp
  rcases List.mem_map.mp hp with ⟨q, _, rfl⟩
  unfold bgr2gray absdiffPixel natAbsDiff
  simp

/-- detect_motion on two identical frames: the whole pipeline yields the
zero image, which has no regions, so the scan returns (false, 0). -/
theorem detect_motion_self (cfg : Config) (f : Frame) :
    detect_motion cfg f f = (false, 0) := by
  unfold detect_motion motionPipeline
  rw [contourAreas_zero]
  · rfl
  · exact dilate3_zero _ (thresholdBin_zero _
      (gaussianBlur_zero _ (cvtColorGray_absdiff_self f)))

/-! ### Helper lemmas: the contour scan loop -/

theorem if_lt_floor_max (acc : ℤ) (a : ℚ) :
    (if (acc : ℚ) < a then ⌊a⌋ else acc) = max acc ⌊a⌋ := by
  by_cases hc : (acc : ℚ) < a
  · rw [if_pos hc]
    exact (max_eq_right (Int.le_floor.mpr hc.le)).symm
  · rw [if_neg hc]
    push_neg at hc
    have hfl : ⌊a⌋ ≤ acc := by
      have := Int.floor_le_floor hc
      rwa [Int.floor_intCast] at this
    exact (max_eq_left hfl).symm

/-- The scan loop returns true with the floor of the first area reaching
the threshold, in list order. -/
theorem scanContours_found (thr : ℚ) (areas : List ℚ) (a : ℚ)
    (h : areas.find? (fun x => decide (thr ≤ x)) = some a) (acc : ℤ) :
    scanContours thr acc areas = (true, ⌊a⌋) := by
  induction areas generalizing acc with
  | nil => simp [List.find?] at h
  | cons b t ih =>
      by_cases hb : thr ≤ b
      · rw [List.find?_cons_of_pos t (by simpa using hb)] at h
        cases h
        simp [scanContours, hb]
      · rw [List.find?_cons_of_neg t (by simpa using hb)] at h
        simp only [scanContours, if_neg hb]
        exact ih h _
/-- When no area reaches the threshold, the scan loop returns false with
the running maximum of the floored areas. -/
theorem scanContours_below (thr : ℚ) (areas : List ℚ)
    (h : ∀ x ∈ areas, x < thr) (acc : ℤ) :
    scanContours thr acc areas = (false, (areas.map fun a => ⌊a⌋).foldl max acc) := by
  induction areas generalizing acc with
  | nil => rfl
  | cons b t ih =>
      have hb : ¬ thr ≤ b := not_le.mpr (h b (List.mem_cons_self b t))
      simp only [scanContours, if_neg hb, List.map_cons, List.foldl_cons, if_lt_floor_max]
      exact ih (fun x hx => h x (List.mem_cons_of_mem b hx)) _

/-! ### Helper lemmas: sound detection and real square roots -/

theorem chunkMse_nonneg (d : Chunk) : 0 ≤ chunkMse d := by
  unfold chunkMse
  apply div_nonneg
  · exact List.sum_nonneg fun x hx => by
      rcases List.mem_map.mp hx with ⟨y, _, rfl⟩
      positivity
  · positivity

/-- Truncating the real square root of a non-negative rational agrees with
the integer square root of its floor; this is the identity behind the
executable pyIntSqrt. -/
theorem intSqrt_floor_eq (q : ℚ) (hq : 0 ≤ q) :
    ((pyIntSqrt q : ℤ)) = ⌊Real.sqrt ((q : ℝ))⌋ := by
  set n : ℕ := ⌊q⌋.toNat with hn
  have hfl : ((n : ℤ)) = ⌊q⌋ := Int.toNat_of_nonneg (Int.floor_nonneg.mpr hq)
  have hcast : ((n : ℚ)) = ((⌊q⌋ : ℚ)) := by exact_mod_cast hfl
  have hnq : ((n : ℚ)) ≤ q := by rw [hcast]; exact Int.floor_le q
  have hup : q < ((n : ℚ)) + 1 := by rw [hcast]; exact Int.lt_floor_add_one q
  have hpy : pyIntSqrt q = Nat.sqrt n := rfl
  rw [hpy]
  symm
  rw [Int.floor_eq_iff]
  constructor
  · push_cast
    rw [Real.le_sqrt (by positivity) (by exact_mod_cast hq)]
    have h1 : ((Nat.sqrt n ^ 2 : ℕ) : ℝ) ≤ ((n : ℝ)) := by
      exact_mod_cast Nat.sqrt_le' n
    have h2 : ((n : ℝ)) ≤ ((q : ℝ)) := by exact_mod_cast hnq
    calc ((Nat.sqrt n : ℝ)) ^ 2 = ((Nat.sqrt n ^ 2 : ℕ) : ℝ) := by push_cast; ring
      _ ≤ ((n : ℝ)) := h1
      _ ≤ ((q : ℝ)) := h2
  · push_cast
    rw [Real.sqrt_lt' (by positivity)]
    have h1 : ((q : ℝ)) < ((n : ℝ)) + 1 := by exact_mod_cast hup
    have h2 : ((n : ℝ)) + 1 ≤ ((Nat.sqrt n : ℝ) + 1) ^ 2 := by
      have hle : (n + 1 : ℕ) ≤ (Nat.sqrt n + 1) * (Nat.sqrt n + 1) := Nat.lt_succ_sqrt n
      have hle2 : ((n + 1 : ℕ) : ℝ) ≤ (((Nat.sqrt n + 1) * (Nat.sqrt n + 1) : ℕ) : ℝ) := by
        exact_mod_cast hle
      push_cast at hle2
      nlinarith [hle2]
    linarith

/-- The executable threshold test agrees with the comparison of the real
RMS with the threshold, for any threshold. -/
theorem rmsExceeds_iff (m thr : ℚ) :
    rmsExceeds m thr = true ↔ ((thr : ℝ)) < Real.sqrt ((m : ℝ)) := by
  unfold rmsExceeds
  by_cases ht : thr < 0
  · simp only [if_pos ht, true_iff]
    calc ((thr : ℝ)) < 0 := by exact_mod_cast ht
      _ ≤ Real.sqrt ((m : ℝ)) := Real.sqrt_nonneg _
  · simp only [if_neg ht, decide_eq_true_eq]
    push_neg at ht
    rw [Real.lt_sqrt (by exact_mod_cast ht)]
    constructor
    · intro hlt
      calc ((thr : ℝ)) ^ 2 = (((thr ^ 2 : ℚ)) : ℝ) := by push_cast; ring
        _ < ((m : ℝ)) := by exact_mod_cast hlt
    · intro hlt
      have : (((thr ^ 2 : ℚ)) : ℝ) < ((m : ℝ)) := by
        calc (((thr ^ 2 : ℚ)) : ℝ) = ((thr : ℝ)) ^ 2 := by push_cast; ring
          _ < ((m : ℝ)) := hlt
      exact_mod_cast this

/-! ### Concrete inputs for the scenario claims -/

/-- A 1x1 black frame: a camera pointed at a static scene, so that
consecutive frames are identical and yield no motion. -/
def F0 : Frame := [[(0, 0, 0)]]

/-- A loud chunk: one sample of amplitude 1000, whose RMS 1000 exceeds the
default sound_threshold 500. -/
def chunkLoud : Chunk := [1000]

/-- A silent chunk: all-zero samples. -/
def chunkQuiet : Chunk := [0]

/-- One loop iteration input with a static camera frame and a loud or
silent audio read at time t; no ESC, next frame read succeeds, and an
ffmpeg invocation this iteration would succeed. -/
def tick (loud : Bool) (t : ℚ) : IterInput :=
  { chunkRead := some (if loud then chunkLoud else chunkQuiet)
    t := t
    nextFrame := some F0
    displayExit := false
    muxOk := true }

/-- The source configuration with the no-activity window as a parameter
(the other constants as in src/record.py lines 15-19). -/
def cfgL (limit : ℚ) : Config :=
  { defaultConfig with no_activity_time_limit := limit }

theorem chunkMse_loud : chunkMse chunkLoud = 1000000 := by
  unfold chunkMse chunkLoud
  norm_num

theorem detect_sound_loud (cfg : Config) (h : cfg.sound_threshold = 500) :
    detect_sound cfg (some chunkLoud) = (true, chunkLoud, 1000) := by
  have hd : detect_sound cfg (some chunkLoud) =
      if chunkLoud = [] ∨ ∀ x ∈ chunkLoud, x = 0 then (false, chunkLoud, 0)
      else (rmsExceeds (chunkMse chunkLoud) cfg.sound_threshold, chunkLoud,
        pyIntSqrt (chunkMse chunkLoud)) := rfl
  rw [hd, if_neg (by decide)]
  have h1 : rmsExceeds (chunkMse chunkLoud) cfg.sound_threshold = true := by
    rw [chunkMse_loud, h]
    unfold rmsExceeds
    rw [if_neg (by norm_num)]
    exact decide_eq_true_eq.mpr (by norm_num)
  have h2 : pyIntSqrt (chunkMse chunkLoud) = 1000 := by
    rw [chunkMse_loud]
    unfold pyIntSqrt
    rw [show ⌊(1000000 : ℚ)⌋ = 1000000 by norm_num]
    rw [show ((1000000 : ℤ)).toNat = 1000000 from rfl]
    rw [show (1000000 : ℕ) = 1000 ^ 2 by norm_num, Nat.sqrt_eq']
  rw [h1, h2]

theorem detect_sound_quiet (cfg : Config) :
    detect_sound cfg (some chunkQuiet) = (false, chunkQuiet, 0) := by
  have hd : detect_sound cfg (some chunkQuiet) =
      if chunkQuiet = [] ∨ ∀ x ∈ chunkQuiet, x = 0 then (false, chunkQuiet, 0)
      else (rmsExceeds (chunkMse chunkQuiet) cfg.sound_threshold, chunkQuiet,
        pyIntSqrt (chunkMse chunkQuiet)) := rfl
  rw [hd, if_pos (by decide)]

/-- Under any configuration with the default thresholds and trigger
method, a loud static-scene tick reports activity. -/
theorem iterActivity_loud (limit t : ℚ) (s : LoopState)
    (hf : s.frame1 = F0) (hg : s.frame2 = F0) :
    iterActivity (cfgL limit) s (tick true t) = true := by
  unfold iterActivity
  rw [hf, hg, detect_motion_self]
  rw [show (tick true t).chunkRead = some chunkLoud from rfl]
  rw [detect_sound_loud _ (by rfl)]
  rfl

/-- A silent static-scene tick reports no activity. -/
theorem iterActivity_quiet (limit t : ℚ) (s : LoopState)
    (hf : s.frame1 = F0) (hg : s.frame2 = F0) :
    iterActivity (cfgL limit) s (tick false t) = false := by
  unfold iterActivity
  rw [hf, hg, detect_motion_self]
  rw [show (tick false t).chunkRead = some chunkQuiet from rfl]
  rw [detect_sound_quiet]
  rfl

/-! ### Helper lemmas: the phases of one loop iteration -/

theorem activityPhase_open (cfg : Config) (s : LoopState) (inp : IterInput)
    (hact : iterActivity cfg s inp = true) (hrec : s.recording = false) :
    activityPhase cfg s inp =
      start_recording cfg { s with lastActivityTime := some inp.t } := by
  simp [activityPhase, hact, hrec]

theorem activityPhase_refresh (cfg : Config) (s : LoopState) (inp : IterInput)
    (hact : iterActivity cfg s inp = true) (hrec : s.recording = true) :
    activityPhase cfg s inp = { s with lastActivityTime := some inp.t } := by
  simp [activityPhase, hact, hrec]

theorem activityPhase_idle (cfg : Config) (s : LoopState) (inp : IterInput)
    (hact : iterActivity cfg s inp = false) :
    activityPhase cfg s inp = s := by
  simp [activityPhase, hact]

theorem recordPhase_off (cfg : Config) (s1 : LoopState) (inp : IterInput)
    (h : s1.recording = false) : recordPhase cfg s1 inp = s1 := by
  simp [recordPhase, h]

theorem recordPhase_keep (cfg : Config) (s1 : LoopState) (inp : IterInput)
    (h : s1.recording = true)
    (hc : closeCond s1.lastActivityTime inp.t cfg.no_activity_time_limit = false) :
    recordPhase cfg s1 inp = { s1 with
      videoWrites := if s1.outOpen then s1.videoWrites ++ [s1.frame1] else s1.videoWrites
      audioWrites :=
        if s1.wfOpen then s1.audioWrites ++ [(detect_sound cfg inp.chunkRead).2.1]
        else s1.audioWrites } := by
  simp [recordPhase, h, hc]

theorem recordPhase_close (cfg : Config) (s1 : LoopState) (inp : IterInput)
    (h : s1.recording = true)
    (hc : closeCond s1.lastActivityTime inp.t cfg.no_activity_time_limit = true) :
    recordPhase cfg s1 inp =
      { stop_recording cfg inp.muxOk { s1 with
          videoWrites := if s1.outOpen then s1.videoWrites ++ [s1.frame1] else s1.videoWrites
          audioWrites :=
            if s1.wfOpen then s1.audioWrites ++ [(detect_sound cfg inp.chunkRead).2.1]
            else s1.audioWrites } with recording := false } := by
  simp [recordPhase, h, hc]

theorem closeCond_now (t L : ℚ) (ht : t ≠ 0) (hL : 0 ≤ L) :
    closeCond (some t) t L = false := by
  simp [closeCond, ht, sub_self, not_lt.mpr hL]

theorem closeCond_within (v t L : ℚ) (hv : v ≠ 0) (h : ¬ L < t - v) :
    closeCond (some v) t L = false := by
  simp [closeCond, hv, h]

theorem closeCond_expired (v t L : ℚ) (hv : v ≠ 0) (h : L < t - v) :
    closeCond (some v) t L = true := by
  simp [closeCond, hv, h]

/-- The loop-exit flag of one iteration depends only on the display check
and the frame read, not on the session state. -/
theorem loopStep_snd (cfg : Config) (s : LoopState) (inp : IterInput) :
    (loopStep cfg s inp).2 = (inp.displayExit || inp.nextFrame.isNone) := by
  unfold loopStep
  rcases hd : inp.displayExit with _ | _
  · rcases hf : inp.nextFrame with _ | f <;> simp [hd, hf]
  · simp [hd]

/-- One iteration, loud tick, no session open: a session starts (with both
sinks, under the source's record_content both), the triggering frame and
chunk are appended, and the loop continues. -/
theorem loopStep_openTick (limit t : ℚ) (s : LoopState) (hrec : s.recording = false)
    (hf : s.frame1 = F0) (hg : s.frame2 = F0) (hL : 0 ≤ limit) (ht : t ≠ 0) :
    loopStep (cfgL limit) s (tick true t) =
      ({ s with
          recording := true
          lastActivityTime := some t
          outOpen := true
          wfOpen := true
          tempVideo := true
          tempAudio := true
          opens := s.opens + 1
          videoWrites := s.videoWrites ++ [F0]
          audioWrites := s.audioWrites ++ [chunkLoud]
          frame1 := F0
          frame2 := F0 }, false) := by
  have hact := iterActivity_loud limit t s hf hg
  have hT : (tick true t).t = t := rfl
  have hD : (tick true t).displayExit = false := rfl
  have hN : (tick true t).nextFrame = some F0 := rfl
  have hC : (tick true t).chunkRead = some chunkLoud := rfl
  unfold loopStep
  rw [activityPhase_open _ _ _ hact hrec, hT]
  rw [recordPhase_keep _ _ _ rfl
    (by rw [show (start_recording (cfgL limit)
        { s with lastActivityTime := some t }).lastActivityTime = some t from rfl, hT]
        exact closeCond_now t limit ht hL)]
  rw [hD, hC, hN, detect_sound_loud (cfgL limit) rfl]
  simp only [start_recording, if_true, if_false, Bool.false_eq_true]
  simp [hf, hg, start_recording, cfgL, defaultConfig, recVideo, recAudio]

/-- One iteration, loud tick, session already open: no second session, the
idle timer is refreshed, the retained frame and the chunk are appended. -/
theorem loopStep_refreshTick (limit t : ℚ) (s : LoopState) (hrec : s.recording = true)
    (hout : s.outOpen = true) (hwf : s.wfOpen = true)
    (hf : s.frame1 = F0) (hg : s.frame2 = F0) (hL : 0 ≤ limit) (ht : t ≠ 0) :
    loopStep (cfgL limit) s (tick true t) =
      ({ s with
          lastActivityTime := some t
          videoWrites := s.videoWrites ++ [F0]
          audioWrites := s.audioWrites ++ [chunkLoud]
          frame1 := F0
          frame2 := F0 }, false) := by
  have hact := iterActivity_loud limit t s hf hg
  have hT : (tick true t).t = t := rfl
  have hD : (tick true t).displayExit = false := rfl
  have hN : (tick true t).nextFrame = some F0 := rfl
  have hC : (tick true t).chunkRead = some chunkLoud := rfl
  unfold loopStep
  rw [activityPhase_refresh _ _ _ hact hrec, hT]
  rw [recordPhase_keep _ _ _ (by exact hrec)
    (by exact closeCond_now t limit ht hL)]
  rw [hD, hC, hN, detect_sound_loud (cfgL limit) rfl]
  simp [hf, hg, hout, hwf]

/-- One iteration, quiet tick, session open, idle window not yet elapsed:
the frame and silent chunk are still appended, nothing else changes. -/
theorem loopStep_quietKeep (limit t v : ℚ) (s : LoopState) (hrec : s.recording = true)
    (hout : s.outOpen = true) (hwf : s.wfOpen = true)
    (hlat : s.lastActivityTime = some v) (hv : v ≠ 0)
    (hc : ¬ (limit < t - v))
    (hf : s.frame1 = F0) (hg : s.frame2 = F0) :
    loopStep (cfgL limit) s (tick false t) =
      ({ s with
          videoWrites := s.videoWrites ++ [F0]
          audioWrites := s.audioWrites ++ [chunkQuiet]
          frame1 := F0
          frame2 := F0 }, false) := by
  have hact := iterActivity_quiet limit t s hf hg
  have hT : (tick false t).t = t := rfl
  have hD : (tick false t).displayExit = false := rfl
  have hN : (tick false t).nextFrame = some F0 := rfl
  have hC : (tick false t).chunkRead = some chunkQuiet := rfl
  unfold loopStep
  rw [activityPhase_idle _ _ _ hact]
  rw [recordPhase_keep _ _ _ hrec
    (by rw [hlat, hT]; exact closeCond_within v t limit hv hc)]
  rw [hD, hC, hN, detect_sound_quiet (cfgL limit)]
  simp [hf, hg, hout, hwf]

/-- One iteration, quiet tick, session open, idle window elapsed: the
frame and chunk are appended one last time, then the session closes --
sinks released, ffmpeg invoked (muxer succeeds in this scenario), both
temporaries removed. -/
theorem loopStep_quietClose (limit t v : ℚ) (s : LoopState) (hrec : s.recording = true)
    (hout : s.outOpen = true) (hwf : s.wfOpen = true)
    (hlat : s.lastActivityTime = some v) (hv : v ≠ 0)
    (hc : limit < t - v)
    (hf : s.frame1 = F0) (hg : s.frame2 = F0) :
    loopStep (cfgL limit) s (tick false t) =
      ({ s with
          recording := false
          outOpen := false
          wfOpen := false
          tempVideo := false
          tempAudio := false
          closes := s.closes + 1
          muxCalls := s.muxCalls + 1
          finalFiles := s.finalFiles + 1
          videoWrites := s.videoWrites ++ [F0]
          audioWrites := s.audioWrites ++ [chunkQuiet]
          frame1 := F0
          frame2 := F0 }, false) := by
  have hact := iterActivity_quiet limit t s hf hg
  have hT : (tick false t).t = t := rfl
  have hD : (tick false t).displayExit = false := rfl
  have hN : (tick false t).nextFrame = some F0 := rfl
  have hC : (tick false t).chunkRead = some chunkQuiet := rfl
  have hM : (tick false t).muxOk = true := rfl
  unfold loopStep
  rw [activityPhase_idle _ _ _ hact]
  rw [recordPhase_close _ _ _ hrec
    (by rw [hlat, hT]; exact closeCond_expired v t limit hv hc)]
  rw [hD, hC, hN, hM, detect_sound_quiet (cfgL limit)]
  simp only [stop_recording]
  simp [hf, hg, hout, hwf, cfgL, defaultConfig]

theorem runLoop_nil (cfg : Config) (s : LoopState) : runLoop cfg s [] = (s, 0) := rfl

theorem runLoop_cons_continue (cfg : Config) (s S : LoopState) (inp : IterInput)
    (rest : List IterInput) (h : loopStep cfg s inp = (S, false)) :
    runLoop cfg s (inp :: rest) =
      ((runLoop cfg S rest).1, (runLoop cfg S rest).2 + 1) := by
  show (let r := loopStep cfg s inp;
    if r.2 = true then (r.1, 1)
    else ((runLoop cfg r.1 rest).1, (runLoop cfg r.1 rest).2 + 1)) =
      ((runLoop cfg S rest).1, (runLoop cfg S rest).2 + 1)
  rw [h]
  rfl

theorem runLoop_cons_break (cfg : Config) (s S : LoopState) (inp : IterInput)
    (rest : List IterInput) (h : loopStep cfg s inp = (S, true)) :
    runLoop cfg s (inp :: rest) = (S, 1) := by
  show (let r := loopStep cfg s inp;
    if r.2 = true then (r.1, 1)
    else ((runLoop cfg r.1 rest).1, (runLoop cfg r.1 rest).2 + 1)) = (S, 1)
  rw [h]
  rfl

/-! ### The session/sink invariant of the loop -/

/-- The invariant connecting the session flag with the sink handles, the
temporary artifacts and the open/close counters: the sinks and temporary
files required by record_content are present exactly while a session is
open, each start_recording is matched by a stop_recording except for a
still-open session, ffmpeg is invoked once per close when record_content
is both and never otherwise, and under record_content none no final file
is ever produced. -/
def SinkInv (cfg : Config) (s : LoopState) : Prop :=
  s.outOpen = (s.recording && recVideo cfg.record_content) ∧
  s.wfOpen = (s.recording && recAudio cfg.record_content) ∧
  s.tempVideo = (s.recording && recVideo cfg.record_content) ∧
  s.tempAudio = (s.recording && recAudio cfg.record_content) ∧
  s.opens = s.closes + (if s.recording = true then 1 else 0) ∧
  s.muxCalls = (if cfg.record_content = RecordContent.both then s.closes else 0) ∧
  (cfg.record_content = RecordContent.none → s.finalFiles = 0)

theorem sinkInv_init (cfg : Config) (f1 f2 : Frame) :
    SinkInv cfg (initState f1 f2) := by
  refine ⟨rfl, rfl, rfl, rfl, by simp [initState], ?_, fun _ => rfl⟩
  simp [initState]

theorem sinkInv_start (cfg : Config) (s : LoopState) (h : SinkInv cfg s)
    (hrec : s.recording = false) : SinkInv cfg (start_recording cfg s) := by
  obtain ⟨h1, h2, h3, h4, h5, h6, h7⟩ := h
  rw [hrec] at h5
  refine ⟨?_, ?_, ?_, ?_, ?_, ?_, h7⟩ <;>
    simp [start_recording, h5, h6]

theorem sinkInv_activityPhase (cfg : Config) (s : LoopState) (inp : IterInput)
    (h : SinkInv cfg s) : SinkInv cfg (activityPhase cfg s inp) := by
  by_cases hact : iterActivity cfg s inp = true
  · rcases hrec : s.recording with _ | _
    · rw [activityPhase_open _ _ _ hact hrec]
      have hmid : SinkInv cfg { s with lastActivityTime := some inp.t } := by
        simpa [SinkInv] using h
      exact sinkInv_start cfg _ hmid (by simpa using hrec)
    · rw [activityPhase_refresh _ _ _ hact hrec]
      simpa [SinkInv] using h
  · rw [activityPhase_idle _ _ _ (by simpa using hact)]
    exact h

theorem sinkInv_recordPhase (cfg : Config) (s1 : LoopState) (inp : IterInput)
    (h : SinkInv cfg s1) : SinkInv cfg (recordPhase cfg s1 inp) := by
  rcases hrec : s1.recording with _ | _
  · rw [recordPhase_off _ _ _ hrec]
    exact h
  · by_cases hc : closeCond s1.lastActivityTime inp.t cfg.no_activity_time_limit = true
    · rw [recordPhase_close _ _ _ hrec hc]
      obtain ⟨h1, h2, h3, h4, h5, h6, h7⟩ := h
      rw [hrec] at h5
      cases hrc : cfg.record_content <;>
        simp_all [SinkInv, stop_recording, recVideo, recAudio]
    · rw [recordPhase_keep _ _ _ hrec (by simpa using hc)]
      simpa [SinkInv] using h

set_option maxHeartbeats 1600000 in
theorem sinkInv_loopStep (cfg : Config) (s : LoopState) (inp : IterInput)
    (h : SinkInv cfg s) : SinkInv cfg (loopStep cfg s inp).1 := by
  have h2 := sinkInv_recordPhase cfg _ inp (sinkInv_activityPhase cfg s inp h)
  have hframe1 : ∀ (s2 : LoopState) (f : Frame), SinkInv cfg s2 →
      SinkInv cfg { s2 with frame1 := f } := fun _ _ hh => hh
  have hframe2 : ∀ (s2 : LoopState) (f g : Frame), SinkInv cfg s2 →
      SinkInv cfg { s2 with frame1 := f, frame2 := g } := fun _ _ _ hh => hh
  rcases hd : inp.displayExit with _ | _
  · rcases hn : inp.nextFrame with _ | f
    · have he : loopStep cfg s inp =
          ({ recordPhase cfg (activityPhase cfg s inp) inp with
              frame1 := (recordPhase cfg (activityPhase cfg s inp) inp).frame2 }, true) := by
        unfold loopStep
        rw [hd, hn]
        rfl
      rw [he]
      exact hframe1 _ _ h2
    · have he : loopStep cfg s inp =
          ({ recordPhase cfg (activityPhase cfg s inp) inp with
              frame1 := (recordPhase cfg (activityPhase cfg s inp) inp).frame2
              frame2 := f }, false) := by
        unfold loopStep
        rw [hd, hn]
        rfl
      rw [he]
      exact hframe2 _ _ _ h2
  · have he : loopStep cfg s inp =
        (recordPhase cfg (activityPhase cfg s inp) inp, true) := by
      unfold loopStep
      rw [hd]
      rfl
    have hfst : (loopStep cfg s inp).1 =
        recordPhase cfg (activityPhase cfg s inp) inp := by
      rw [he]
    rw [hfst]
    exact h2

theorem runLoop_fst_cons (cfg : Config) (s : LoopState) (inp : IterInput)
    (rest : List IterInput) :
    (runLoop cfg s (inp :: rest)).1 =
      (if (loopStep cfg s inp).2 = true then (loopStep cfg s inp).1
       else (runLoop cfg (loopStep cfg s inp).1 rest).1) := by
  show ((let r := loopStep cfg s inp;
    if r.2 = true then (r.1, 1)
    else ((runLoop cfg r.1 rest).1, (runLoop cfg r.1 rest).2 + 1))).1 = _
  by_cases hb : (loopStep cfg s inp).2 = true <;> simp [hb]

theorem sinkInv_runLoop (cfg : Config) (l : List IterInput) (s : LoopState)
    (h : SinkInv cfg s) : SinkInv cfg (runLoop cfg s l).1 := by
  induction l generalizing s with
  | nil => exact h
  | cons inp rest ih =>
      rw [runLoop_fst_cons]
      by_cases hb : (loopStep cfg s inp).2 = true
      · rw [if_pos hb]
        exact sinkInv_loopStep cfg s inp h
      · rw [if_neg hb]
        exact ih _ (sinkInv_loopStep cfg s inp h)

theorem stop_recording_fields (cfg : Config) (muxOk : Bool) (s : LoopState) :
    (stop_recording cfg muxOk s).outOpen = false ∧
    (stop_recording cfg muxOk s).wfOpen = false ∧
    (stop_recording cfg muxOk s).closes = s.closes + 1 ∧
    (stop_recording cfg muxOk s).opens = s.opens ∧
    (stop_recording cfg muxOk s).muxCalls =
      s.muxCalls + (if cfg.record_content = RecordContent.both then 1 else 0) ∧
    (stop_recording cfg muxOk s).tempVideo = (s.tempVideo && !recVideo cfg.record_content) ∧
    (stop_recording cfg muxOk s).tempAudio = (s.tempAudio && !recAudio cfg.record_content) ∧
    (stop_recording cfg muxOk s).streamOpen = s.streamOpen ∧
    (stop_recording cfg muxOk s).capOpen = s.capOpen ∧
    (stop_recording cfg muxOk s).lastActivityTime = s.lastActivityTime ∧
    (stop_recording cfg muxOk s).videoWrites = s.videoWrites ∧
    (stop_recording cfg muxOk s).audioWrites = s.audioWrites ∧
    (stop_recording cfg muxOk s).recording = s.recording ∧
    (stop_recording cfg muxOk s).frame1 = s.frame1 ∧
    (stop_recording cfg muxOk s).frame2 = s.frame2 := by
  cases hrc : cfg.record_content <;>
    simp [stop_recording, hrc, recVideo, recAudio]

/-- Claim C2: whenever the loop ends -- in particular when an operator
interrupt cuts the input sequence at any iteration boundary while a
session is Active -- the finally-cleanup still drives the session through
Active, Closing, Idle before the process exits: afterwards no sink handle
is open, the device handles are released, no temporary artifact remains,
every opened session has been closed, and (under record_content both)
every close handed its artifacts to the muxer. -/
theorem C2_interrupt_finalizes (cfg : Config) (muxOk : Bool) (f1 f2 : Frame)
    (inputs : List IterInput) :
    (finState cfg muxOk f1 f2 inputs).outOpen = false ∧
    (finState cfg muxOk f1 f2 inputs).wfOpen = false ∧
    (finState cfg muxOk f1 f2 inputs).streamOpen = false ∧
    (finState cfg muxOk f1 f2 inputs).capOpen = false ∧
    (finState cfg muxOk f1 f2 inputs).tempVideo = false ∧
    (finState cfg muxOk f1 f2 inputs).tempAudio = false ∧
    (finState cfg muxOk f1 f2 inputs).opens = (finState cfg muxOk f1 f2 inputs).closes ∧
    (finState cfg muxOk f1 f2 inputs).muxCalls =
      (if cfg.record_content = RecordContent.both
       then (finState cfg muxOk f1 f2 inputs).closes else 0) := by
  obtain ⟨h1, h2, h3, h4, h5, h6, h7⟩ :=
    sinkInv_runLoop cfg inputs (initState f1 f2) (sinkInv_init cfg f1 f2)
  set S := (runLoop cfg (initState f1 f2) inputs).1 with hS
  have hclean : ∀ s1 : LoopState,
      finState cfg muxOk f1 f2 inputs =
        { s1 with streamOpen := false, capOpen := false } →
      s1.outOpen = false → s1.wfOpen = false → s1.tempVideo = false →
      s1.tempAudio = false → s1.opens = s1.closes →
      s1.muxCalls = (if cfg.record_content = RecordContent.both then s1.closes else 0) →
      (finState cfg muxOk f1 f2 inputs).outOpen = false ∧
      (finState cfg muxOk f1 f2 inputs).wfOpen = false ∧
      (finState cfg muxOk f1 f2 inputs).streamOpen = false ∧
      (finState cfg muxOk f1 f2 inputs).capOpen = false ∧
      (finState cfg muxOk f1 f2 inputs).tempVideo = false ∧
      (finState cfg muxOk f1 f2 inputs).tempAudio = false ∧
      (finState cfg muxOk f1 f2 inputs).opens = (finState cfg muxOk f1 f2 inputs).closes ∧
      (finState cfg muxOk f1 f2 inputs).muxCalls =
        (if cfg.record_content = RecordContent.both
         then (finState cfg muxOk f1 f2 inputs).closes else 0) := by
    intro s1 he e1 e2 e3 e4 e5 e6
    rw [he]
    exact ⟨e1, e2, rfl, rfl, e3, e4, e5, e6⟩
  rcases Bool.eq_false_or_eq_true S.recording with hrec | hrec
  · rw [hrec] at h1 h2 h3 h4 h5
    obtain ⟨g1, g2, g3, g4, g5, g6, g7, g8, g9⟩ := stop_recording_fields cfg muxOk S
    refine hclean (stop_recording cfg muxOk S) ?_ g1 g2 ?_ ?_ ?_ ?_
    · show cleanup cfg muxOk S = _
      unfold cleanup
      rw [hrec]
      rfl
    · rw [g6, h3]
      cases hrv : recVideo cfg.record_content <;> simp
    · rw [g7, h4]
      cases hra : recAudio cfg.record_content <;> simp
    · rw [g4, g3, h5]
      simp
    · rw [g5, g3, h6]
      by_cases hb : cfg.record_content = RecordContent.both <;> simp [hb]
  · rw [hrec] at h1 h2 h3 h4 h5
    refine hclean S ?_ (by simpa using h1) (by simpa using h2) (by simpa using h3)
      (by simpa using h4) (by simpa using h5) h6
    show cleanup cfg muxOk S = _
    unfold cleanup
    conv_lhs => rw [hrec]
    rfl

/-! ### Characterizations of one loop iteration's outcome -/

theorem loopStep_eq_exit (cfg : Config) (s : LoopState) (inp : IterInput)
    (hd : inp.displayExit = true) :
    loopStep cfg s inp = (recordPhase cfg (activityPhase cfg s inp) inp, true) := by
  unfold loopStep
  rw [hd]
  rfl

theorem loopStep_eq_noframe (cfg : Config) (s : LoopState) (inp : IterInput)
    (hd : inp.displayExit = false) (hn : inp.nextFrame = Option.none) :
    loopStep cfg s inp =
      ({ recordPhase cfg (activityPhase cfg s inp) inp with
          frame1 := (recordPhase cfg (activityPhase cfg s inp) inp).frame2 }, true) := by
  unfold loopStep
  rw [hd, hn]
  rfl

theorem loopStep_eq_frame (cfg : Config) (s : LoopState) (inp : IterInput) (f : Frame)
    (hd : inp.displayExit = false) (hn : inp.nextFrame = some f) :
    loopStep cfg s inp =
      ({ recordPhase cfg (activityPhase cfg s inp) inp with
          frame1 := (recordPhase cfg (activityPhase cfg s inp) inp).frame2
          frame2 := f }, false) := by
  unfold loopStep
  rw [hd, hn]
  rfl

/-- The session-relevant fields of the state after one iteration equal
those after the record phase; the tail of the iteration only rotates the
retained frames. -/
theorem loopStep_core (cfg : Config) (s : LoopState) (inp : IterInput) :
    (loopStep cfg s inp).1.recording =
      (recordPhase cfg (activityPhase cfg s inp) inp).recording ∧
    (loopStep cfg s inp).1.lastActivityTime =
      (recordPhase cfg (activityPhase cfg s inp) inp).lastActivityTime ∧
    (loopStep cfg s inp).1.opens =
      (recordPhase cfg (activityPhase cfg s inp) inp).opens ∧
    (loopStep cfg s inp).1.closes =
      (recordPhase cfg (activityPhase cfg s inp) inp).closes ∧
    (loopStep cfg s inp).1.videoWrites =
      (recordPhase cfg (activityPhase cfg s inp) inp).videoWrites ∧
    (loopStep cfg s inp).1.audioWrites =
      (recordPhase cfg (activityPhase cfg s inp) inp).audioWrites ∧
    (loopStep cfg s inp).1.outOpen =
      (recordPhase cfg (activityPhase cfg s inp) inp).outOpen ∧
    (loopStep cfg s inp).1.wfOpen =
      (recordPhase cfg (activityPhase cfg s inp) inp).wfOpen := by
  rcases Bool.eq_false_or_eq_true inp.displayExit with hd | hd
  · rw [loopStep_eq_exit cfg s inp hd]
    generalize recordPhase cfg (activityPhase cfg s inp) inp = X
    exact ⟨rfl, rfl, rfl, rfl, rfl, rfl, rfl, rfl⟩
  · cases hn : inp.nextFrame with
    | none =>
        rw [loopStep_eq_noframe cfg s inp hd hn]
        generalize recordPhase cfg (activityPhase cfg s inp) inp = X
        exact ⟨rfl, rfl, rfl, rfl, rfl, rfl, rfl, rfl⟩
    | some f =>
        rw [loopStep_eq_frame cfg s inp f hd hn]
        generalize recordPhase cfg (activityPhase cfg s inp) inp = X
        exact ⟨rfl, rfl, rfl, rfl, rfl, rfl, rfl, rfl⟩

theorem runLoop_snd_cons (cfg : Config) (s : LoopState) (inp : IterInput)
    (rest : List IterInput) :
    (runLoop cfg s (inp :: rest)).2 =
      (if (loopStep cfg s inp).2 = true then 1
       else (runLoop cfg (loopStep cfg s inp).1 rest).2 + 1) := by
  show ((let r := loopStep cfg s inp;
    if r.2 = true then (r.1, 1)
    else ((runLoop cfg r.1 rest).1, (runLoop cfg r.1 rest).2 + 1))).2 = _
  by_cases hb : (loopStep cfg s inp).2 = true <;> simp [hb]

/-! ### Claim C3: temporary artifacts on mux failure -/

/-- A state with a session open under record_content both: both sinks
open, both temporary artifact files on disk. -/
def sOpenBoth : LoopState :=
  { initState F0 F0 with
    recording := true
    lastActivityTime := some 1
    outOpen := true
    wfOpen := true
    tempVideo := true
    tempAudio := true
    opens := 1 }

/-- Claim C3 counterexample: when the combine step fails (non-zero ffmpeg
exit, muxOk = false), stop_recording nevertheless deletes both temporary
artifacts and no final file exists -- the recording is lost, not preserved
for manual recovery.  This refutes the claim that the temporaries are left
in place on failure. -/
theorem C3_mux_failure_counterexample :
    (stop_recording defaultConfig false sOpenBoth).tempVideo = false ∧
    (stop_recording defaultConfig false sOpenBoth).tempAudio = false ∧
    (stop_recording defaultConfig false sOpenBoth).finalFiles = 0 := by
  refine ⟨rfl, rfl, rfl⟩

/-- Claim C3 (amended): when recordContent is both, stop_recording closes
the sinks, invokes the external combine step exactly once, and then
deletes both temporary artifacts unconditionally -- the combine exit
status is never inspected; the final artifact exists only when the
combine succeeded, so on failure the temporaries are lost rather than
preserved. -/
theorem C3_mux_cleanup_amended (cfg : Config) (muxOk : Bool) (s : LoopState)
    (h : cfg.record_content = RecordContent.both) :
    stop_recording cfg muxOk s =
      { s with
        outOpen := false
        wfOpen := false
        closes := s.closes + 1
        muxCalls := s.muxCalls + 1
        finalFiles := s.finalFiles + (if muxOk then 1 else 0)
        tempVideo := false
        tempAudio := false } := by
  simp [stop_recording, h]

theorem C3_mux_cleanup_amended_witness :
    stop_recording defaultConfig false sOpenBoth =
      { sOpenBoth with
        outOpen := false
        wfOpen := false
        closes := sOpenBoth.closes + 1
        muxCalls := sOpenBoth.muxCalls + 1
        finalFiles := sOpenBoth.finalFiles + (if false then 1 else 0)
        tempVideo := false
        tempAudio := false } :=
  C3_mux_cleanup_amended defaultConfig false sOpenBoth rfl

/-! ### Claim C7: process exit status at startup failure -/

/-- The startup environment in which the platform is recognized, the
camera cannot be opened, and the audio subsystem is healthy. -/
def envCamFail : StartupEnv :=
  { codecKnown := true
    cameraOpens := false
    audioDeviceCount := 1
    micOpenRaises := false
    initFramesOk := true }

/-- Claim C7 counterexample: when the camera cannot be opened at startup,
main prints an error and falls through the bare return at line 267, so
the Python process exits with status 0 -- not non-zero as claimed.  (No
loop iteration executes, which is the part of the claim that does hold.) -/
theorem C7_exit_code_counterexample :
    mainRun envCamFail defaultConfig F0 F0 [tick true 1] = (0, 0) := rfl

/-- Claim C7 (amended): a camera that cannot be opened, or an absent
audio device, makes main return early -- the process exits with status 0
after printing the error, and no loop iteration executes; the exit status
is non-zero only when opening the microphone raises an uncaught
exception; a completed run (clean or operator-interrupted shutdown) also
exits with status 0. -/
theorem C7_exit_code_amended :
    (∀ (env : StartupEnv) (cfg : Config) (f1 f2 : Frame) (inputs : List IterInput),
      env.codecKnown = true → env.cameraOpens = false → env.micOpenRaises = false →
      mainRun env cfg f1 f2 inputs = (0, 0)) ∧
    (∀ (env : StartupEnv) (cfg : Config) (f1 f2 : Frame) (inputs : List IterInput),
      env.codecKnown = true → env.audioDeviceCount = 0 →
      mainRun env cfg f1 f2 inputs = (0, 0)) ∧
    (∀ (env : StartupEnv) (cfg : Config) (f1 f2 : Frame) (inputs : List IterInput),
      env.codecKnown = true → 1 ≤ env.audioDeviceCount → env.micOpenRaises = true →
      mainRun env cfg f1 f2 inputs = (1, 0)) ∧
    (∀ (env : StartupEnv) (cfg : Config) (f1 f2 : Frame) (inputs : List IterInput),
      (mainRun env cfg f1 f2 inputs).1 = 0 ∨ (mainRun env cfg f1 f2 inputs).1 = 1) := by
  refine ⟨?_, ?_, ?_, ?_⟩
  · intro env cfg f1 f2 inputs h1 h2 h3
    unfold mainRun
    rw [h1, h2, h3]
    simp
  · intro env cfg f1 f2 inputs h1 h2
    unfold mainRun
    rw [h1, h2]
    simp
  · intro env cfg f1 f2 inputs h1 h2 h3
    unfold mainRun
    rw [h1, h3]
    simp [h2]
  · intro env cfg f1 f2 inputs
    unfold mainRun
    split
    · exact Or.inl rfl
    · split
      · exact Or.inr rfl
      · split
        · exact Or.inl rfl
        · split
          · exact Or.inl rfl
          · exact Or.inl rfl

theorem C7_exit_code_amended_witness :
    mainRun envCamFail defaultConfig F0 F0 [] = (0, 0) ∧
    mainRun { envCamFail with audioDeviceCount := 0, cameraOpens := true }
      defaultConfig F0 F0 [] = (0, 0) ∧
    mainRun { envCamFail with cameraOpens := true, micOpenRaises := true }
      defaultConfig F0 F0 [] = (1, 0) :=
  ⟨C7_exit_code_amended.1 envCamFail defaultConfig F0 F0 [] rfl rfl rfl,
   C7_exit_code_amended.2.1 _ defaultConfig F0 F0 [] rfl rfl,
   C7_exit_code_amended.2.2.1 _ defaultConfig F0 F0 [] rfl (by decide) rfl⟩

/-! ### Claim C4: per-iteration read failures -/

/-- An iteration whose video frame read fails (cap.read returns ret =
False at src/record.py line 341) while the audio read succeeds. -/
def tickNoFrame : IterInput :=
  { chunkRead := some chunkLoud
    t := 1
    nextFrame := Option.none
    displayExit := false
    muxOk := true }

/-- An iteration whose audio read raises (the except branch of
detect_sound) while the video read succeeds. -/
def tickAudioFail : IterInput :=
  { chunkRead := Option.none
    t := 2
    nextFrame := some F0
    displayExit := false
    muxOk := true }

/-- Claim C4 counterexample: a failed video-frame read does abort the
loop.  With two queued iterations whose first frame read fails, only one
iteration executes -- the loop breaks at line 343 -- refuting the claim
that a device read failure never aborts the loop. -/
theorem C4_read_failure_counterexample :
    (runLoop defaultConfig (initState F0 F0) [tickNoFrame, tick true 2]).2 = 1 := by
  rw [runLoop_snd_cons]
  have hb : (loopStep defaultConfig (initState F0 F0) tickNoFrame).2 = true := by
    rw [loopStep_snd]
    rfl
  rw [hb]
  rfl

/-- Claim C4 (amended): an audio-chunk read failure degrades gracefully
-- the iteration reports no sound with score 0 and an empty chunk, the
loop continues (provided the frame read succeeds and ESC is not
pressed), and an in-progress session survives the iteration whenever the
idle window has not elapsed; a video-frame read failure, however, ends
the loop (the finally-cleanup then finalizes any open session). -/
theorem C4_read_failure_amended :
    (∀ cfg : Config, detect_sound cfg Option.none = (false, [], 0)) ∧
    (∀ (cfg : Config) (s : LoopState) (inp : IterInput),
      inp.displayExit = false → inp.nextFrame.isSome = true →
      (loopStep cfg s inp).2 = false) ∧
    (∀ (cfg : Config) (s : LoopState) (inp : IterInput) (v : ℚ),
      s.recording = true → inp.chunkRead = Option.none →
      iterActivity cfg s inp = false → s.lastActivityTime = some v → v ≠ 0 →
      ¬ (cfg.no_activity_time_limit < inp.t - v) →
      (loopStep cfg s inp).1.recording = true) ∧
    (∀ (cfg : Config) (s : LoopState) (inp : IterInput),
      inp.nextFrame = Option.none → (loopStep cfg s inp).2 = true) := by
  refine ⟨fun _ => rfl, ?_, ?_, ?_⟩
  · intro cfg s inp h1 h2
    rw [loopStep_snd, h1]
    cases hn : inp.nextFrame with
    | none => rw [hn] at h2; simp at h2
    | some f => rfl
  · intro cfg s inp v hrec hchunk hact hlat hv hc
    have hcc : closeCond s.lastActivityTime inp.t cfg.no_activity_time_limit = false := by
      rw [hlat]
      exact closeCond_within v inp.t _ hv hc
    rw [(loopStep_core cfg s inp).1, activityPhase_idle _ _ _ hact,
      recordPhase_keep _ _ _ hrec hcc]
    exact hrec
  · intro cfg s inp hn
    rw [loopStep_snd, hn]
    simp

theorem C4_read_failure_amended_witness :
    detect_sound defaultConfig Option.none = (false, [], 0) ∧
    (loopStep defaultConfig (initState F0 F0) (tick true 1)).2 = false ∧
    (loopStep defaultConfig sOpenBoth tickAudioFail).1.recording = true ∧
    (loopStep defaultConfig (initState F0 F0) tickNoFrame).2 = true :=
  ⟨C4_read_failure_amended.1 defaultConfig,
   C4_read_failure_amended.2.1 defaultConfig (initState F0 F0) (tick true 1) rfl rfl,
   C4_read_failure_amended.2.2.1 defaultConfig sOpenBoth tickAudioFail 1 rfl rfl
     (by rfl) rfl (by norm_num) (by norm_num [defaultConfig, tickAudioFail]),
   C4_read_failure_amended.2.2.2 defaultConfig (initState F0 F0) tickNoFrame rfl⟩

/-- The record phase never changes the open/close counters or the idle
timestamp. -/
theorem recordPhase_counts (cfg : Config) (s1 : LoopState) (inp : IterInput) :
    (recordPhase cfg s1 inp).opens = s1.opens ∧
    (recordPhase cfg s1 inp).lastActivityTime = s1.lastActivityTime := by
  rcases Bool.eq_false_or_eq_true s1.recording with hrec | hrec
  · by_cases hc : closeCond s1.lastActivityTime inp.t cfg.no_activity_time_limit = true
    · rw [recordPhase_close _ _ _ hrec hc]
      obtain ⟨g1, g2, g3, g4, g5, g6, g7, g8, g9, g10, g11, g12, g13⟩ :=
        stop_recording_fields cfg inp.muxOk
          { s1 with
            videoWrites := if s1.outOpen then s1.videoWrites ++ [s1.frame1] else s1.videoWrites
            audioWrites :=
              if s1.wfOpen then s1.audioWrites ++ [(detect_sound cfg inp.chunkRead).2.1]
              else s1.audioWrites }
      exact ⟨g4, g10⟩
    · rw [recordPhase_keep _ _ _ hrec (by simpa using hc)]
      exact ⟨rfl, rfl⟩
  · rw [recordPhase_off _ _ _ hrec]
    exact ⟨rfl, rfl⟩

/-- While a session is open, the record phase appends the retained frame
to the video sink and the iteration's chunk to the audio sink, exactly
when the respective handle is open. -/
theorem recordPhase_writes (cfg : Config) (s1 : LoopState) (inp : IterInput)
    (hrec : s1.recording = true) :
    (recordPhase cfg s1 inp).videoWrites =
      (if s1.outOpen then s1.videoWrites ++ [s1.frame1] else s1.videoWrites) ∧
    (recordPhase cfg s1 inp).audioWrites =
      (if s1.wfOpen then s1.audioWrites ++ [(detect_sound cfg inp.chunkRead).2.1]
       else s1.audioWrites) := by
  by_cases hc : closeCond s1.lastActivityTime inp.t cfg.no_activity_time_limit = true
  · rw [recordPhase_close _ _ _ hrec hc]
    obtain ⟨g1, g2, g3, g4, g5, g6, g7, g8, g9, g10, g11, g12, g13⟩ :=
      stop_recording_fields cfg inp.muxOk
        { s1 with
          videoWrites := if s1.outOpen then s1.videoWrites ++ [s1.frame1] else s1.videoWrites
          audioWrites :=
            if s1.wfOpen then s1.audioWrites ++ [(detect_sound cfg inp.chunkRead).2.1]
            else s1.audioWrites }
    exact ⟨g11, g12⟩
  · rw [recordPhase_keep _ _ _ hrec (by simpa using hc)]
    exact ⟨rfl, rfl⟩

/-! ### Scenario scaffolding: named successor states for the tick runs -/

/-- The state after an opening loud tick at time t (matches
loopStep_openTick). -/
def openLoud (s : LoopState) (t : ℚ) : LoopState :=
  { s with
    recording := true
    lastActivityTime := some t
    outOpen := true
    wfOpen := true
    tempVideo := true
    tempAudio := true
    opens := s.opens + 1
    videoWrites := s.videoWrites ++ [F0]
    audioWrites := s.audioWrites ++ [chunkLoud]
    frame1 := F0
    frame2 := F0 }

/-- The state after a loud tick at time t with the session already open
(matches loopStep_refreshTick). -/
def refreshLoud (s : LoopState) (t : ℚ) : LoopState :=
  { s with
    lastActivityTime := some t
    videoWrites := s.videoWrites ++ [F0]
    audioWrites := s.audioWrites ++ [chunkLoud]
    frame1 := F0
    frame2 := F0 }

/-- The state after a quiet tick with the session open and the idle
window not yet elapsed (matches loopStep_quietKeep). -/
def keepQuiet (s : LoopState) : LoopState :=
  { s with
    videoWrites := s.videoWrites ++ [F0]
    audioWrites := s.audioWrites ++ [chunkQuiet]
    frame1 := F0
    frame2 := F0 }

/-- The state after a quiet tick that closes the session (matches
loopStep_quietClose). -/
def closeQuiet (s : LoopState) : LoopState :=
  { s with
    recording := false
    outOpen := false
    wfOpen := false
    tempVideo := false
    tempAudio := false
    closes := s.closes + 1
    muxCalls := s.muxCalls + 1
    finalFiles := s.finalFiles + 1
    videoWrites := s.videoWrites ++ [F0]
    audioWrites := s.audioWrites ++ [chunkQuiet]
    frame1 := F0
    frame2 := F0 }

/-- Claim C1: while a session is Active, a positive activity detection
never opens a second session -- it only refreshes last_activity_time --
and over the tick sequence [true, true, false, false, true] whose
false-run is shorter than no_activity_time_limit, exactly one session is
opened and exactly one is closed (at final cleanup), not two. -/
theorem C1_session_coalescing :
    (∀ (cfg : Config) (s : LoopState) (inp : IterInput),
      s.recording = true →
      (loopStep cfg s inp).1.opens = s.opens ∧
      (iterActivity cfg s inp = true →
        (loopStep cfg s inp).1.lastActivityTime = some inp.t)) ∧
    (∀ limit t1 t2 t3 t4 t5 : ℚ,
      0 < t1 → t1 ≤ t2 → t2 ≤ t3 → t3 ≤ t4 → t4 ≤ t5 →
      t4 - t2 < limit → 0 ≤ limit →
      (finState (cfgL limit) true F0 F0
        [tick true t1, tick true t2, tick false t3, tick false t4,
         tick true t5]).opens = 1 ∧
      (finState (cfgL limit) true F0 F0
        [tick true t1, tick true t2, tick false t3, tick false t4,
         tick true t5]).closes = 1) := by
  constructor
  · intro cfg s inp hrec
    constructor
    · rw [(loopStep_core cfg s inp).2.2.1]
      by_cases hact : iterActivity cfg s inp = true
      · rw [activityPhase_refresh _ _ _ hact hrec,
          (recordPhase_counts cfg _ inp).1]
      · rw [activityPhase_idle _ _ _ (by simpa using hact),
          (recordPhase_counts cfg _ inp).1]
    · intro hact
      rw [(loopStep_core cfg s inp).2.1, activityPhase_refresh _ _ _ hact hrec,
        (recordPhase_counts cfg _ inp).2]
  · intro limit t1 t2 t3 t4 t5 h1 h12 h23 h34 h45 hgap hL
    have p1 : t1 ≠ 0 := ne_of_gt h1
    have p2 : t2 ≠ 0 := ne_of_gt (lt_of_lt_of_le h1 h12)
    have p5 : t5 ≠ 0 :=
      ne_of_gt (lt_of_lt_of_le h1 (le_trans h12 (le_trans h23 (le_trans h34 h45))))
    have hc3 : ¬ (limit < t3 - t2) := by
      intro hcon
      have : t3 - t2 ≤ t4 - t2 := by linarith
      linarith
    have hc4 : ¬ (limit < t4 - t2) := by linarith
    have e1 : loopStep (cfgL limit) (initState F0 F0) (tick true t1) =
        (openLoud (initState F0 F0) t1, false) :=
      loopStep_openTick limit t1 (initState F0 F0) rfl rfl rfl hL p1
    have e2 : loopStep (cfgL limit) (openLoud (initState F0 F0) t1) (tick true t2) =
        (refreshLoud (openLoud (initState F0 F0) t1) t2, false) :=
      loopStep_refreshTick limit t2 _ rfl rfl rfl rfl rfl hL p2
    have e3 : loopStep (cfgL limit)
        (refreshLoud (openLoud (initState F0 F0) t1) t2) (tick false t3) =
        (keepQuiet (refreshLoud (openLoud (initState F0 F0) t1) t2), false) :=
      loopStep_quietKeep limit t3 t2 _ rfl rfl rfl rfl p2 hc3 rfl rfl
    have e4 : loopStep (cfgL limit)
        (keepQuiet (refreshLoud (openLoud (initState F0 F0) t1) t2)) (tick false t4) =
        (keepQuiet (keepQuiet (refreshLoud (openLoud (initState F0 F0) t1) t2)), false) :=
      loopStep_quietKeep limit t4 t2 _ rfl rfl rfl rfl p2 hc4 rfl rfl
    have e5 : loopStep (cfgL limit)
        (keepQuiet (keepQuiet (refreshLoud (openLoud (initState F0 F0) t1) t2)))
        (tick true t5) =
        (refreshLoud (keepQuiet (keepQuiet (refreshLoud (openLoud (initState F0 F0) t1) t2)))
          t5, false) :=
      loopStep_refreshTick limit t5 _ rfl rfl rfl rfl rfl hL p5
    unfold finState
    rw [runLoop_cons_continue _ _ _ _ _ e1, runLoop_cons_continue _ _ _ _ _ e2,
      runLoop_cons_continue _ _ _ _ _ e3, runLoop_cons_continue _ _ _ _ _ e4,
      runLoop_cons_continue _ _ _ _ _ e5, runLoop_nil]
    exact ⟨rfl, rfl⟩

theorem C1_session_coalescing_witness :
    (loopStep defaultConfig sOpenBoth tickAudioFail).1.opens = sOpenBoth.opens ∧
    (finState (cfgL 10) true F0 F0
      [tick true 1, tick true 2, tick false 3, tick false 4, tick true 5]).opens = 1 ∧
    (finState (cfgL 10) true F0 F0
      [tick true 1, tick true 2, tick false 3, tick false 4, tick true 5]).closes = 1 :=
  ⟨(C1_session_coalescing.1 defaultConfig sOpenBoth tickAudioFail rfl).1,
   (C1_session_coalescing.2 10 1 2 3 4 5 (by norm_num) (by norm_num) (by norm_num)
     (by norm_num) (by norm_num) (by norm_num) (by norm_num)).1,
   (C1_session_coalescing.2 10 1 2 3 4 5 (by norm_num) (by norm_num) (by norm_num)
     (by norm_num) (by norm_num) (by norm_num) (by norm_num)).2⟩

/-- Claim C5: an Active session transitions to Closing exactly when the
elapsed time since last_activity_time strictly exceeds
no_activity_time_limit -- at elapsed time equal to the limit the session
stays Active (part one, stated as an iff over one iteration for positive
wall-clock timestamps); and a tick sequence with an idle gap longer than
the limit between two true-runs produces exactly two sessions (part
two). -/
theorem C5_idle_timeout_split :
    (∀ (cfg : Config) (s : LoopState) (inp : IterInput) (v : ℚ),
      s.recording = true → s.lastActivityTime = some v → 0 < v →
      0 ≤ cfg.no_activity_time_limit →
      ((loopStep cfg s inp).1.recording = false ↔
        (iterActivity cfg s inp = false ∧
          cfg.no_activity_time_limit < inp.t - v))) ∧
    (∀ limit t1 t2 t3 t4 t5 : ℚ,
      0 < t1 → t1 ≤ t2 → t2 ≤ t3 → t3 ≤ t4 → t4 ≤ t5 →
      t3 - t2 ≤ limit → limit < t4 - t2 → 0 ≤ limit →
      (finState (cfgL limit) true F0 F0
        [tick true t1, tick true t2, tick false t3, tick false t4,
         tick true t5]).opens = 2 ∧
      (finState (cfgL limit) true F0 F0
        [tick true t1, tick true t2, tick false t3, tick false t4,
         tick true t5]).closes = 2) := by
  constructor
  · intro cfg s inp v hrec hlat hv hL
    rw [(loopStep_core cfg s inp).1]
    by_cases hact : iterActivity cfg s inp = true
    · rw [activityPhase_refresh _ _ _ hact hrec]
      have hcc : closeCond (some inp.t) inp.t cfg.no_activity_time_limit = false := by
        by_cases ht0 : inp.t = 0
        · simp [closeCond, ht0]
        · exact closeCond_now inp.t _ ht0 hL
      rw [recordPhase_keep _ _ _ (by exact hrec) (by exact hcc)]
      simp [hact, hrec]
    · rw [activityPhase_idle _ _ _ (by simpa using hact)]
      by_cases hclose : cfg.no_activity_time_limit < inp.t - v
      · have hcc : closeCond s.lastActivityTime inp.t cfg.no_activity_time_limit = true := by
          rw [hlat]
          exact closeCond_expired v inp.t _ (ne_of_gt hv) hclose
        rw [recordPhase_close _ _ _ hrec hcc]
        simp only [Bool.not_eq_true] at hact
        simp [hact, hclose]
      · have hcc : closeCond s.lastActivityTime inp.t cfg.no_activity_time_limit = false := by
          rw [hlat]
          exact closeCond_within v inp.t _ (ne_of_gt hv) hclose
        rw [recordPhase_keep _ _ _ hrec hcc]
        simp [hrec, hclose]
  · intro limit t1 t2 t3 t4 t5 h1 h12 h23 h34 h45 hkeep hgap hL
    have p1 : t1 ≠ 0 := ne_of_gt h1
    have p2 : t2 ≠ 0 := ne_of_gt (lt_of_lt_of_le h1 h12)
    have p5 : t5 ≠ 0 :=
      ne_of_gt (lt_of_lt_of_le h1 (le_trans h12 (le_trans h23 (le_trans h34 h45))))
    have hc3 : ¬ (limit < t3 - t2) := not_lt.mpr hkeep
    have e1 : loopStep (cfgL limit) (initState F0 F0) (tick true t1) =
        (openLoud (initState F0 F0) t1, false) :=
      loopStep_openTick limit t1 (initState F0 F0) rfl rfl rfl hL p1
    have e2 : loopStep (cfgL limit) (openLoud (initState F0 F0) t1) (tick true t2) =
        (refreshLoud (openLoud (initState F0 F0) t1) t2, false) :=
      loopStep_refreshTick limit t2 _ rfl rfl rfl rfl rfl hL p2
    have e3 : loopStep (cfgL limit)
        (refreshLoud (openLoud (initState F0 F0) t1) t2) (tick false t3) =
        (keepQuiet (refreshLoud (openLoud (initState F0 F0) t1) t2), false) :=
      loopStep_quietKeep limit t3 t2 _ rfl rfl rfl rfl p2 hc3 rfl rfl
    have e4 : loopStep (cfgL limit)
        (keepQuiet (refreshLoud (openLoud (initState F0 F0) t1) t2)) (tick false t4) =
        (closeQuiet (keepQuiet (refreshLoud (openLoud (initState F0 F0) t1) t2)), false) :=
      loopStep_quietClose limit t4 t2 _ rfl rfl rfl rfl p2 hgap rfl rfl
    have e5 : loopStep (cfgL limit)
        (closeQuiet (keepQuiet (refreshLoud (openLoud (initState F0 F0) t1) t2)))
        (tick true t5) =
        (openLoud (closeQuiet (keepQuiet (refreshLoud (openLoud (initState F0 F0) t1) t2)))
          t5, false) :=
      loopStep_openTick limit t5 _ rfl rfl rfl hL p5
    unfold finState
    rw [runLoop_cons_continue _ _ _ _ _ e1, runLoop_cons_continue _ _ _ _ _ e2,
      runLoop_cons_continue _ _ _ _ _ e3, runLoop_cons_continue _ _ _ _ _ e4,
      runLoop_cons_continue _ _ _ _ _ e5, runLoop_nil]
    exact ⟨rfl, rfl⟩

theorem C5_idle_timeout_split_witness :
    ((loopStep defaultConfig sOpenBoth tickAudioFail).1.recording = false ↔
      (iterActivity defaultConfig sOpenBoth tickAudioFail = false ∧
        defaultConfig.no_activity_time_limit < tickAudioFail.t - 1)) ∧
    (finState (cfgL 10) true F0 F0
      [tick true 1, tick true 2, tick false 3, tick false 20, tick true 21]).opens = 2 ∧
    (finState (cfgL 10) true F0 F0
      [tick true 1, tick true 2, tick false 3, tick false 20, tick true 21]).closes = 2 :=
  ⟨C5_idle_timeout_split.1 defaultConfig sOpenBoth tickAudioFail 1 rfl rfl
      (by norm_num) (by norm_num [defaultConfig]),
   (C5_idle_timeout_split.2 10 1 2 3 20 21 (by norm_num) (by norm_num) (by norm_num)
     (by norm_num) (by norm_num) (by norm_num) (by norm_num) (by norm_num)).1,
   (C5_idle_timeout_split.2 10 1 2 3 20 21 (by norm_num) (by norm_num) (by norm_num)
     (by norm_num) (by norm_num) (by norm_num) (by norm_num) (by norm_num)).2⟩

/-- Claim C10: on the iteration that opens a session, the very frame and
audio chunk whose analysis triggered the start (the retained baseline
frame1, which detect_motion differenced against frame2, and the chunk
detect_sound returned) are appended to the newly opened sinks in that
same iteration; and on every iteration with the session active and the
video sink open, the frame appended is s.frame1 -- the older of the two
retained frames, the differencing baseline -- not the newest captured
frame s.frame2. -/
theorem C10_trigger_frame_written :
    (∀ (cfg : Config) (s : LoopState) (inp : IterInput),
      s.recording = false → iterActivity cfg s inp = true →
      ((recVideo cfg.record_content = true →
        (loopStep cfg s inp).1.videoWrites = s.videoWrites ++ [s.frame1]) ∧
       (recAudio cfg.record_content = true →
        (loopStep cfg s inp).1.audioWrites =
          s.audioWrites ++ [(detect_sound cfg inp.chunkRead).2.1]))) ∧
    (∀ (cfg : Config) (s : LoopState) (inp : IterInput),
      s.recording = true → s.outOpen = true →
      (loopStep cfg s inp).1.videoWrites = s.videoWrites ++ [s.frame1]) := by
  constructor
  · intro cfg s inp hrec hact
    have hw := recordPhase_writes cfg
      (start_recording cfg { s with lastActivityTime := some inp.t }) inp rfl
    constructor
    · intro hrv
      rw [(loopStep_core cfg s inp).2.2.2.2.1, activityPhase_open _ _ _ hact hrec,
        hw.1]
      rw [show (start_recording cfg { s with lastActivityTime := some inp.t }).outOpen =
        recVideo cfg.record_content from rfl, hrv]
      rfl
    · intro hra
      rw [(loopStep_core cfg s inp).2.2.2.2.2.1, activityPhase_open _ _ _ hact hrec,
        hw.2]
      rw [show (start_recording cfg { s with lastActivityTime := some inp.t }).wfOpen =
        recAudio cfg.record_content from rfl, hra]
      rfl
  · intro cfg s inp hrec hout
    by_cases hact : iterActivity cfg s inp = true
    · have hw := recordPhase_writes cfg { s with lastActivityTime := some inp.t } inp
        (by exact hrec)
      rw [(loopStep_core cfg s inp).2.2.2.2.1, activityPhase_refresh _ _ _ hact hrec,
        hw.1]
      dsimp only
      rw [hout]
      rfl
    · have hw := recordPhase_writes cfg s inp hrec
      rw [(loopStep_core cfg s inp).2.2.2.2.1, activityPhase_idle _ _ _ (by simpa using hact),
        hw.1, hout]
      rfl

theorem C10_trigger_frame_written_witness :
    (loopStep defaultConfig (initState F0 F0) (tick true 1)).1.videoWrites =
      (initState F0 F0).videoWrites ++ [(initState F0 F0).frame1] ∧
    (loopStep defaultConfig (initState F0 F0) (tick true 1)).1.audioWrites =
      (initState F0 F0).audioWrites ++
        [(detect_sound defaultConfig (tick true 1).chunkRead).2.1] ∧
    (loopStep defaultConfig sOpenBoth (tick false 2)).1.videoWrites =
      sOpenBoth.videoWrites ++ [sOpenBoth.frame1] :=
  ⟨(C10_trigger_frame_written.1 defaultConfig (initState F0 F0) (tick true 1) rfl
      (iterActivity_loud 10 1 (initState F0 F0) rfl rfl)).1 rfl,
   (C10_trigger_frame_written.1 defaultConfig (initState F0 F0) (tick true 1) rfl
      (iterActivity_loud 10 1 (initState F0 F0) rfl rfl)).2 rfl,
   C10_trigger_frame_written.2 defaultConfig sOpenBoth (tick false 2) rfl rfl⟩

/-! ### Claim C8: the motion detector -/

/-- A 1x1 all-white frame, differing from F0 in every channel. -/
def FW : Frame := [[(255, 255, 255)]]

/-- Claim C8: for every frame pair, detect_motion returns true together
with the (truncated) area of the first region in scan order whose area
reaches motion_threshold; when no region reaches the threshold it
returns false together with the largest observed (truncated) region
area; and for two identical frames it returns (false, 0). -/
theorem C8_motion_detector :
    (∀ (cfg : Config) (frame1 frame2 : Frame) (a : ℚ),
      (contourAreas (motionPipeline frame1 frame2)).find?
          (fun x => decide (cfg.motion_threshold ≤ x)) = some a →
      detect_motion cfg frame1 frame2 = (true, ⌊a⌋)) ∧
    (∀ (cfg : Config) (frame1 frame2 : Frame),
      (∀ x ∈ contourAreas (motionPipeline frame1 frame2), x < cfg.motion_threshold) →
      detect_motion cfg frame1 frame2 =
        (false,
          ((contourAreas (motionPipeline frame1 frame2)).map fun a => ⌊a⌋).foldl max 0)) ∧
    (∀ (cfg : Config) (f : Frame), detect_motion cfg f f = (false, 0)) := by
  refine ⟨?_, ?_, detect_motion_self⟩
  · intro cfg frame1 frame2 a h
    exact scanContours_found _ _ a h 0
  · intro cfg frame1 frame2 h
    exact scanContours_below _ _ h 0

theorem C8_motion_detector_witness :
    detect_motion { defaultConfig with motion_threshold := 1 } F0 FW = (true, 1) ∧
    detect_motion defaultConfig F0 FW = (false, 1) ∧
    detect_motion defaultConfig F0 F0 = (false, 0) :=
  ⟨C8_motion_detector.1 { defaultConfig with motion_threshold := 1 } F0 FW 1 (by decide),
   C8_motion_detector.2.1 defaultConfig F0 FW (by decide),
   C8_motion_detector.2.2 defaultConfig F0⟩

/-! ### Claim C9: the sound detector -/

/-- Claim C9: an empty or all-zero chunk yields (false, chunk, 0);
otherwise the boolean is true exactly when the real RMS (the square root
of the mean square) exceeds sound_threshold, and the reported score is
the truncated RMS; in particular a chunk of constant amplitude A scores
exactly A. -/
theorem C9_sound_detector :
    (∀ (cfg : Config) (d : Chunk), (d = [] ∨ ∀ x ∈ d, x = 0) →
      detect_sound cfg (some d) = (false, d, 0)) ∧
    (∀ (cfg : Config) (d : Chunk), ¬ (d = [] ∨ ∀ x ∈ d, x = 0) →
      (((detect_sound cfg (some d)).1 = true ↔
        ((cfg.sound_threshold : ℝ)) < Real.sqrt (((chunkMse d : ℚ) : ℝ))) ∧
      (((detect_sound cfg (some d)).2.2 : ℤ)) = ⌊Real.sqrt (((chunkMse d : ℚ) : ℝ))⌋)) ∧
    (∀ (cfg : Config) (A n : ℕ), 0 < A → 0 < n →
      (detect_sound cfg (some (List.replicate n ((A : ℤ))))).2.2 = A) := by
  refine ⟨?_, ?_, ?_⟩
  · intro cfg d h
    have hd : detect_sound cfg (some d) =
        if d = [] ∨ ∀ x ∈ d, x = 0 then (false, d, 0)
        else (rmsExceeds (chunkMse d) cfg.sound_threshold, d,
          pyIntSqrt (chunkMse d)) := rfl
    rw [hd, if_pos h]
  · intro cfg d h
    have hd : detect_sound cfg (some d) =
        if d = [] ∨ ∀ x ∈ d, x = 0 then (false, d, 0)
        else (rmsExceeds (chunkMse d) cfg.sound_threshold, d,
          pyIntSqrt (chunkMse d)) := rfl
    rw [hd, if_neg h]
    exact ⟨rmsExceeds_iff (chunkMse d) cfg.sound_threshold,
      intSqrt_floor_eq (chunkMse d) (chunkMse_nonneg d)⟩
  · intro cfg A n hA hn
    have hne : ¬ (List.replicate n ((A : ℤ)) = [] ∨
        ∀ x ∈ List.replicate n ((A : ℤ)), x = 0) := by
      rintro (he | hz)
      · rw [List.replicate_eq_nil_iff] at he
        omega
      · have hmem : ((A : ℤ)) ∈ List.replicate n ((A : ℤ)) :=
          List.mem_replicate.mpr ⟨hn.ne', rfl⟩
        have := hz _ hmem
        omega
    have hmse : chunkMse (List.replicate n ((A : ℤ))) = ((A : ℚ)) ^ 2 := by
      unfold chunkMse
      rw [List.map_replicate, List.sum_replicate, List.length_replicate]
      rw [nsmul_eq_mul]
      push_cast
      have hn0 : ((n : ℚ)) ≠ 0 := Nat.cast_ne_zero.mpr hn.ne'
      rw [mul_div_cancel_left₀ _ hn0]
    have hd : detect_sound cfg (some (List.replicate n ((A : ℤ)))) =
        if List.replicate n ((A : ℤ)) = [] ∨
            ∀ x ∈ List.replicate n ((A : ℤ)), x = 0 then
          (false, List.replicate n ((A : ℤ)), 0)
        else (rmsExceeds (chunkMse (List.replicate n ((A : ℤ)))) cfg.sound_threshold,
          List.replicate n ((A : ℤ)),
          pyIntSqrt (chunkMse (List.replicate n ((A : ℤ))))) := rfl
    rw [hd, if_neg hne]
    show pyIntSqrt (chunkMse (List.replicate n ((A : ℤ)))) = A
    rw [hmse]
    unfold pyIntSqrt
    rw [show ((A : ℚ)) ^ 2 = (((A ^ 2 : ℕ) : ℚ)) by push_cast; ring]
    rw [Int.floor_natCast, Int.toNat_natCast, Nat.sqrt_eq']

theorem C9_sound_detector_witness :
    detect_sound defaultConfig (some [0]) = (false, [0], 0) ∧
    ((detect_sound defaultConfig (some [3, 4])).1 = true ↔
      ((defaultConfig.sound_threshold : ℝ)) <
        Real.sqrt (((chunkMse [3, 4] : ℚ) : ℝ))) ∧
    (detect_sound defaultConfig (some (List.replicate 2 ((5 : ℤ))))).2.2 = 5 :=
  ⟨C9_sound_detector.1 defaultConfig [0] (by decide),
   (C9_sound_detector.2.1 defaultConfig [3, 4] (by decide)).1,
   C9_sound_detector.2.2 defaultConfig 5 2 (by decide) (by decide)⟩

/-! ### Claim C6: sessions and sinks -/

/-- The source configuration with record_content none (dry-run mode). -/
def cfgNone : Config := { defaultConfig with record_content := RecordContent.none }

/-- Claim C6 counterexample: under record_content none, one loud tick
opens a session (recording becomes true, the state leaves Idle) while no
sink handle is open -- refuting the claimed equivalence between an
existing session and an open sink, which the same claim pairs with the
record_content none behaviour. -/
theorem C6_sink_invariant_counterexample :
    (loopStep cfgNone (initState F0 F0) (tick true 1)).1.recording = true ∧
    (loopStep cfgNone (initState F0 F0) (tick true 1)).1.outOpen = false ∧
    (loopStep cfgNone (initState F0 F0) (tick true 1)).1.wfOpen = false := by
  have hact : iterActivity cfgNone (initState F0 F0) (tick true 1) = true :=
    iterActivity_loud 10 1 (initState F0 F0) rfl rfl
  have hap := activityPhase_open cfgNone (initState F0 F0) (tick true 1) hact rfl
  have hrec1 : (activityPhase cfgNone (initState F0 F0) (tick true 1)).recording = true := by
    rw [hap]
    rfl
  have hcc : closeCond
      (activityPhase cfgNone (initState F0 F0) (tick true 1)).lastActivityTime
      (tick true 1).t cfgNone.no_activity_time_limit = false := by
    rw [hap]
    exact closeCond_now 1 10 (by norm_num) (by norm_num)
  have hrp := recordPhase_keep cfgNone _ (tick true 1) hrec1 hcc
  have hcore := loopStep_core cfgNone (initState F0 F0) (tick true 1)
  refine ⟨?_, ?_, ?_⟩
  · rw [hcore.1, hrp, hap]
    rfl
  · rw [hcore.2.2.2.2.2.2.1, hrp, hap]
    rfl
  · rw [hcore.2.2.2.2.2.2.2, hrp, hap]
    rfl

/-- The state components that drive the session lifecycle: the recording
flag, the idle timestamp, the open/close counters and the retained
frames.  record_content influences none of them, which is what makes the
none configuration a faithful dry run. -/
def CoreEq (s s2 : LoopState) : Prop :=
  s.recording = s2.recording ∧
  s.lastActivityTime = s2.lastActivityTime ∧
  s.opens = s2.opens ∧
  s.closes = s2.closes ∧
  s.frame1 = s2.frame1 ∧
  s.frame2 = s2.frame2

theorem recordPhase_core (cfg : Config) (s1 : LoopState) (inp : IterInput) :
    (recordPhase cfg s1 inp).frame1 = s1.frame1 ∧
    (recordPhase cfg s1 inp).frame2 = s1.frame2 ∧
    (recordPhase cfg s1 inp).recording =
      (if s1.recording = true ∧
          closeCond s1.lastActivityTime inp.t cfg.no_activity_time_limit = true
       then false else s1.recording) ∧
    (recordPhase cfg s1 inp).closes =
      (if s1.recording = true ∧
          closeCond s1.lastActivityTime inp.t cfg.no_activity_time_limit = true
       then s1.closes + 1 else s1.closes) := by
  rcases Bool.eq_false_or_eq_true s1.recording with hrec | hrec
  · by_cases hc : closeCond s1.lastActivityTime inp.t cfg.no_activity_time_limit = true
    · rw [recordPhase_close _ _ _ hrec hc]
      obtain ⟨g1, g2, g3, g4, g5, g6, g7, g8, g9, g10, g11, g12, g13, g14, g15⟩ :=
        stop_recording_fields cfg inp.muxOk
          { s1 with
            videoWrites := if s1.outOpen then s1.videoWrites ++ [s1.frame1] else s1.videoWrites
            audioWrites :=
              if s1.wfOpen then s1.audioWrites ++ [(detect_sound cfg inp.chunkRead).2.1]
              else s1.audioWrites }
      refine ⟨?_, ?_, ?_, ?_⟩
      · exact g14
      · exact g15
      · rw [if_pos (show s1.recording = true ∧ closeCond s1.lastActivityTime inp.t cfg.no_activity_time_limit = true from ⟨hrec, hc⟩)]
      · rw [if_pos (show s1.recording = true ∧ closeCond s1.lastActivityTime inp.t cfg.no_activity_time_limit = true from ⟨hrec, hc⟩)]
        exact g3
    · have hcF : closeCond s1.lastActivityTime inp.t cfg.no_activity_time_limit = false := by
        simpa using hc
      rw [recordPhase_keep _ _ _ hrec hcF]
      refine ⟨rfl, rfl, ?_, ?_⟩
      · rw [if_neg (show ¬ (s1.recording = true ∧ closeCond s1.lastActivityTime inp.t cfg.no_activity_time_limit = true) from fun hand => hc hand.2)]
      · rw [if_neg (show ¬ (s1.recording = true ∧ closeCond s1.lastActivityTime inp.t cfg.no_activity_time_limit = true) from fun hand => hc hand.2)]
  · rw [recordPhase_off _ _ _ hrec]
    have hno : ¬ (s1.recording = true ∧
        closeCond s1.lastActivityTime inp.t cfg.no_activity_time_limit = true) := by
      rintro ⟨h1, h2⟩
      rw [hrec] at h1
      exact Bool.false_ne_true h1
    refine ⟨rfl, rfl, ?_, ?_⟩
    · rw [if_neg hno]
    · rw [if_neg hno]

theorem coreEq_loopStep (cfg : Config) (s s2 : LoopState) (inp : IterInput)
    (h : CoreEq s s2) :
    CoreEq (loopStep { cfg with record_content := RecordContent.none } s inp).1
      (loopStep cfg s2 inp).1 := by
  obtain ⟨hr, hl, ho, hc, hf1, hf2⟩ := h
  have hact : iterActivity { cfg with record_content := RecordContent.none } s inp =
      iterActivity cfg s2 inp := by
    unfold iterActivity
    rw [hf1, hf2]
    rfl
  have hA : CoreEq
      (activityPhase { cfg with record_content := RecordContent.none } s inp)
      (activityPhase cfg s2 inp) := by
    by_cases ha : iterActivity cfg s2 inp = true
    · have haN : iterActivity { cfg with record_content := RecordContent.none } s inp
          = true := by rw [hact]; exact ha
      by_cases hrec2 : s2.recording = true
      · rw [activityPhase_refresh _ _ _ haN (hr.trans hrec2),
          activityPhase_refresh _ _ _ ha hrec2]
        exact ⟨hr, rfl, ho, hc, hf1, hf2⟩
      · have hrecF : s2.recording = false := by simpa using hrec2
        rw [activityPhase_open _ _ _ haN (hr.trans hrecF),
          activityPhase_open _ _ _ ha hrecF]
        refine ⟨rfl, rfl, ?_, ?_, hf1, hf2⟩
        · show s.opens + 1 = s2.opens + 1
          rw [ho]
        · exact hc
    · have haF : iterActivity cfg s2 inp = false := by simpa using ha
      have haNF : iterActivity { cfg with record_content := RecordContent.none } s inp
          = false := by rw [hact]; exact haF
      rw [activityPhase_idle _ _ _ haNF, activityPhase_idle _ _ _ haF]
      exact ⟨hr, hl, ho, hc, hf1, hf2⟩
  have hR : CoreEq
      (recordPhase { cfg with record_content := RecordContent.none }
        (activityPhase { cfg with record_content := RecordContent.none } s inp) inp)
      (recordPhase cfg (activityPhase cfg s2 inp) inp) := by
    obtain ⟨kr, kl, ko, kc, kf1, kf2⟩ := hA
    obtain ⟨n1, n2, n3, n4⟩ := recordPhase_core
      { cfg with record_content := RecordContent.none }
      (activityPhase { cfg with record_content := RecordContent.none } s inp) inp
    obtain ⟨c1, c2, c3, c4⟩ := recordPhase_core cfg (activityPhase cfg s2 inp) inp
    obtain ⟨no, nl⟩ := recordPhase_counts
      { cfg with record_content := RecordContent.none }
      (activityPhase { cfg with record_content := RecordContent.none } s inp) inp
    obtain ⟨co, cl⟩ := recordPhase_counts cfg (activityPhase cfg s2 inp) inp
    have hcond : ((activityPhase { cfg with record_content := RecordContent.none } s inp).recording = true ∧
        closeCond (activityPhase { cfg with record_content := RecordContent.none } s inp).lastActivityTime
          inp.t ({ cfg with record_content := RecordContent.none } : Config).no_activity_time_limit = true) ↔
        ((activityPhase cfg s2 inp).recording = true ∧
        closeCond (activityPhase cfg s2 inp).lastActivityTime inp.t
          cfg.no_activity_time_limit = true) := by
      rw [kr, kl]
    refine ⟨?_, ?_, ?_, ?_, ?_, ?_⟩
    · rw [n3, c3]
      exact if_congr hcond rfl kr
    · rw [nl, cl]
      exact kl
    · rw [no, co]
      exact ko
    · rw [n4, c4]
      refine if_congr hcond ?_ kc
      rw [kc]
    · rw [n1, c1]
      exact kf1
    · rw [n2, c2]
      exact kf2
  rcases Bool.eq_false_or_eq_true inp.displayExit with hd | hd
  · rw [loopStep_eq_exit _ s inp hd, loopStep_eq_exit cfg s2 inp hd]
    generalize recordPhase { cfg with record_content := RecordContent.none }
      (activityPhase { cfg with record_content := RecordContent.none } s inp) inp = X1 at hR ⊢
    generalize recordPhase cfg (activityPhase cfg s2 inp) inp = X2 at hR ⊢
    exact hR
  · cases hn : inp.nextFrame with
    | none =>
        rw [loopStep_eq_noframe _ s inp hd hn, loopStep_eq_noframe cfg s2 inp hd hn]
        generalize recordPhase { cfg with record_content := RecordContent.none }
          (activityPhase { cfg with record_content := RecordContent.none } s inp) inp = X1 at hR ⊢
        generalize recordPhase cfg (activityPhase cfg s2 inp) inp = X2 at hR ⊢
        obtain ⟨m1, m2, m3, m4, m5, m6⟩ := hR
        exact ⟨m1, m2, m3, m4, m6, m6⟩
    | some f =>
        rw [loopStep_eq_frame _ s inp f hd hn, loopStep_eq_frame cfg s2 inp f hd hn]
        generalize recordPhase { cfg with record_content := RecordContent.none }
          (activityPhase { cfg with record_content := RecordContent.none } s inp) inp = X1 at hR ⊢
        generalize recordPhase cfg (activityPhase cfg s2 inp) inp = X2 at hR ⊢
        obtain ⟨m1, m2, m3, m4, m5, m6⟩ := hR
        exact ⟨m1, m2, m3, m4, m6, rfl⟩

theorem coreEq_runLoop (cfg : Config) (inputs : List IterInput) (s s2 : LoopState)
    (h : CoreEq s s2) :
    CoreEq (runLoop { cfg with record_content := RecordContent.none } s inputs).1
      (runLoop cfg s2 inputs).1 := by
  induction inputs generalizing s s2 with
  | nil => exact h
  | cons inp rest ih =>
      rw [runLoop_fst_cons, runLoop_fst_cons]
      have hsnd : (loopStep { cfg with record_content := RecordContent.none } s inp).2 =
          (loopStep cfg s2 inp).2 := by
        rw [loopStep_snd, loopStep_snd]
      have hstep := coreEq_loopStep cfg s s2 inp h
      by_cases hb : (loopStep cfg s2 inp).2 = true
      · rw [if_pos hb, if_pos (hsnd.trans hb)]
        exact hstep
      · rw [if_neg hb, if_neg (fun hcon => hb (hsnd.symm.trans hcon))]
        exact ih _ _ hstep

/-- Claim C6 (amended): for every configuration whose record_content is not
none, at every point of the run a session exists (recording = true) iff at
least one sink handle (video writer or wave file) is open; under
record_content none no sink is ever open and no final file or mux call is
ever produced, yet the run still executes the full detection/timer logic:
the recording flag, idle timestamp, open/close counters and retained frames
evolve exactly as under the original configuration. -/
theorem C6_sink_invariant_amended (cfg : Config) (f1 f2 : Frame)
    (inputs : List IterInput)
    (hrc : cfg.record_content ≠ RecordContent.none) :
    ((runLoop cfg (initState f1 f2) inputs).1.recording = true ↔
      ((runLoop cfg (initState f1 f2) inputs).1.outOpen = true ∨
       (runLoop cfg (initState f1 f2) inputs).1.wfOpen = true)) ∧
    (∀ cfg2 : Config, cfg2.record_content = RecordContent.none →
      (runLoop cfg2 (initState f1 f2) inputs).1.outOpen = false ∧
      (runLoop cfg2 (initState f1 f2) inputs).1.wfOpen = false ∧
      (runLoop cfg2 (initState f1 f2) inputs).1.finalFiles = 0 ∧
      (runLoop cfg2 (initState f1 f2) inputs).1.muxCalls = 0) ∧
    CoreEq
      (runLoop { cfg with record_content := RecordContent.none }
        (initState f1 f2) inputs).1
      (runLoop cfg (initState f1 f2) inputs).1 := by
  refine ⟨?_, ?_, ?_⟩
  · obtain ⟨h1, h2, h3, h4, h5, h6, h7⟩ :=
      sinkInv_runLoop cfg inputs (initState f1 f2) (sinkInv_init cfg f1 f2)
    have hOr : (recVideo cfg.record_content || recAudio cfg.record_content)
        = true := by
      cases hcc : cfg.record_content with
      | video => rfl
      | audio => rfl
      | both => rfl
      | none => exact absurd hcc hrc
    have key : ((runLoop cfg (initState f1 f2) inputs).1.outOpen ||
        (runLoop cfg (initState f1 f2) inputs).1.wfOpen) =
        (runLoop cfg (initState f1 f2) inputs).1.recording := by
      rw [h1, h2, ← Bool.and_or_distrib_left, hOr, Bool.and_true]
    rw [← Bool.or_eq_true, key]
  · intro cfg2 h0
    obtain ⟨g1, g2, g3, g4, g5, g6, g7⟩ :=
      sinkInv_runLoop cfg2 inputs (initState f1 f2) (sinkInv_init cfg2 f1 f2)
    refine ⟨?_, ?_, g7 h0, ?_⟩
    · rw [g1, h0]
      simp [recVideo]
    · rw [g2, h0]
      simp [recAudio]
    · rw [g6, h0]
      simp
  · exact coreEq_runLoop cfg inputs (initState f1 f2) (initState f1 f2)
      ⟨rfl, rfl, rfl, rfl, rfl, rfl⟩

theorem C6_sink_invariant_amended_witness :
    defaultConfig.record_content ≠ RecordContent.none ∧
    (((runLoop defaultConfig (initState F0 F0) []).1.recording = true ↔
      ((runLoop defaultConfig (initState F0 F0) []).1.outOpen = true ∨
       (runLoop defaultConfig (initState F0 F0) []).1.wfOpen = true)) ∧
     (∀ cfg2 : Config, cfg2.record_content = RecordContent.none →
       (runLoop cfg2 (initState F0 F0) []).1.outOpen = false ∧
       (runLoop cfg2 (initState F0 F0) []).1.wfOpen = false ∧
       (runLoop cfg2 (initState F0 F0) []).1.finalFiles = 0 ∧
       (runLoop cfg2 (initState F0 F0) []).1.muxCalls = 0) ∧
     CoreEq
       (runLoop { defaultConfig with record_content := RecordContent.none }
         (initState F0 F0) []).1
       (runLoop defaultConfig (initState F0 F0) []).1) :=
  ⟨by decide, C6_sink_invariant_amended defaultConfig F0 F0 [] (by decide)⟩
